import Mathlib

/-!
The ad-system registry and resolver of `adsystems.go`.

A shallow embedding of package `adstxt`: the two registry tables that `init`
fills, `adSystem.compareCName`, `validateDomainName`, `rootDomain` and
`vaidateAdSystemCName`, followed by the properties established for them.

Conventions of the embedding.

* A Go `string` is a Lean `String`: the sequence of code points of a string
  holding valid UTF-8, which is what every entry of the registry is.
* A Go `map` literal is the list of its entries in source order; Go rejects a
  literal with a repeated constant key, so looking a key up finds the first
  (and only) entry with it.
* A Go `error` is an `Option String`: `none` is `nil`, `some msg` is the error
  made by `fmt.Errorf`, with `msg` the text of its `Error()`.
* Library code that is not part of the repository is written out where it is
  a fixed algorithm (`strings.Split`, `strings.TrimSpace`, `strings.Index`,
  the ASCII part of `strings.ToLower`, `url.Parse` as `Parse`, and
  `publicsuffix.EffectiveTLDPlusOne` over its suffix lookup) and is a
  parameter where it is table-driven: `uni` stands for `unicode.ToLower` on
  runes outside ASCII and `PublicSuffix` for the lookup in the public suffix
  list. `validateDomainName` and `rootDomain` take the library function they
  call as a parameter, so that a theorem can be stated for every parser or
  for `Parse`. A theorem with a parameter holds for all its values.
* The fields of a parsed `URL` are byte strings, since percent-decoding can
  produce bytes that are not UTF-8; `utf8` gives the bytes of a `String`.
-/

namespace adstxt

/-! ## Strings -/

/-- Go's `len(s)`: the number of bytes of the UTF-8 form of `s`. -/
def len (s : String) : Nat :=
  s.utf8ByteSize

/-- Case mapping of one rune as `strings.ToLower` applies it: an ASCII rune is
lower-cased by the byte rule (`'A'..'Z'` shifted by `'a' - 'A'`), any other
rune goes through `unicode.ToLower`, here `uni`. -/
def lowerRune (uni : Char → Char) (c : Char) : Char :=
  if c.toNat < 128 then
    if 65 ≤ c.toNat ∧ c.toNat ≤ 90 then Char.ofNat (c.toNat + 32) else c
  else uni c

/-- Go's `strings.ToLower`: every rune of `s` mapped to lower case. -/
def ToLower (uni : Char → Char) (s : String) : String :=
  ⟨s.data.map (lowerRune uni)⟩

/-- Go's `unicode.IsSpace`: the Latin-1 white space
`'\t' '\n' '\v' '\f' '\r' ' ' U+0085 U+00A0` and the code points with the
`White_Space` property above Latin-1. -/
def isSpace (c : Char) : Bool :=
  let n := c.toNat
  (9 ≤ n && n ≤ 13) || n == 0x20 || n == 0x85 || n == 0xA0 || n == 0x1680 ||
    (0x2000 ≤ n && n ≤ 0x200A) || n == 0x2028 || n == 0x2029 || n == 0x202F ||
    n == 0x205F || n == 0x3000

/-- Go's `strings.TrimSpace`: `s` without its leading and trailing white space. -/
def TrimSpace (s : String) : String :=
  ⟨((s.data.dropWhile isSpace).reverse.dropWhile isSpace).reverse⟩

/-- Worker of `Split` for a non-empty separator: `skip` counts the runes of a
separator just matched that are still to be passed over, `cur` holds the
piece being collected, last rune first. -/
def splitLoop (sep : List Char) : Nat → List Char → List Char → List (List Char)
  | _, cur, [] => [cur.reverse]
  | skip + 1, cur, _ :: cs => splitLoop sep skip cur cs
  | 0, cur, c :: cs =>
    if sep.isPrefixOf (c :: cs) then cur.reverse :: splitLoop sep (sep.length - 1) [] cs
    else splitLoop sep 0 (c :: cur) cs

/-- Go's `strings.Split(s, sep)`: the pieces of `s` between the occurrences of
`sep`, taken left to right without overlap; with an empty `sep`, the runes of
`s` one by one. -/
def Split (s sep : String) : List String :=
  if sep.data = [] then s.data.map (fun c => String.mk [c])
  else (splitLoop sep.data 0 [] s.data).map String.mk

/-- Worker of `Index`: `off` is the byte offset of the position examined. -/
def indexLoop (substr : List Char) : Nat → List Char → Int
  | off, [] => if substr = [] then (off : Int) else -1
  | off, c :: cs =>
    if substr.isPrefixOf (c :: cs) then (off : Int)
    else indexLoop substr (off + c.utf8Size) cs

/-- Go's `strings.Index(s, substr)`: the byte offset of the first occurrence of
`substr` in `s`, or `-1` when there is none. -/
def Index (s substr : String) : Int :=
  indexLoop substr.data 0 s.data

/-- Whether `s` holds ASCII runes only: the test that sends `strings.ToLower`
down its byte-wise path. -/
def isASCII (s : String) : Bool :=
  s.data.all (fun c => decide (c.toNat < 128))

/-- The UTF-8 bytes of one rune. -/
def utf8Rune (c : Char) : List Nat :=
  let n := c.toNat
  if n < 0x80 then [n]
  else if n < 0x800 then [0xC0 + n / 0x40, 0x80 + n % 0x40]
  else if n < 0x10000 then [0xE0 + n / 0x1000, 0x80 + n / 0x40 % 0x40, 0x80 + n % 0x40]
  else [0xF0 + n / 0x40000, 0x80 + n / 0x1000 % 0x40, 0x80 + n / 0x40 % 0x40,
    0x80 + n % 0x40]

/-- The bytes of a Go string: `s[0], s[1], ...`. -/
def utf8 (s : String) : List Nat :=
  s.data.flatMap utf8Rune

/-! ## Records -/

/-- The struct `adSystem`: one known ad system (SSP or exchange). -/
structure adSystem where
  ID : Int
  Name : String
  CanonicalDomain : String
deriving DecidableEq

/-- The struct `adSystemDomain`: a domain seen in field #1 of ads.txt files
and the `ID` of the ad system it belongs to. -/
structure adSystemDomain where
  Domain : String
  ID : Int
deriving DecidableEq

/-- The constructor `newAdSystem`. -/
def newAdSystem (id : Int) (name : String) (canonicalDomain : String) : adSystem :=
  { ID := id, Name := name, CanonicalDomain := canonicalDomain }

/-- The constructor `newAdSystemDomain`. -/
def newAdSystemDomain (domain : String) (id : Int) : adSystemDomain :=
  { Domain := domain, ID := id }

/-! ## The registry -/

/-- The map literal that `init` assigns to `adSystems`, entry by entry in source order. -/
def adSystems : List (Int × adSystem) := [
  (1, newAdSystem 1 "Rubicon Project" "rubiconproject.com"),
  (2, newAdSystem 2 "33Across" ""),
  (3, newAdSystem 3 "PubMatic" "pubmatic.com"),
  (4, newAdSystem 4 "OpenX" "openx.com"),
  (5, newAdSystem 5 "Facebook" ""),
  (6, newAdSystem 6 "GumGum" ""),
  (7, newAdSystem 7 "Kargo" ""),
  (8, newAdSystem 8 "Google" "google.com"),
  (9, newAdSystem 9 "bRealtime" ""),
  (10, newAdSystem 10 "Amazon" ""),
  (11, newAdSystem 11 "One by AOL: Display" "adtech.com, aolcloud.net"),
  (12, newAdSystem 12 "LiveIntent" ""),
  (13, newAdSystem 13 "Yieldmo" ""),
  (14, newAdSystem 14 "MoPub" ""),
  (15, newAdSystem 15 "One by AOL: Mobile" "aol.com"),
  (16, newAdSystem 16 "SmartStream" ""),
  (17, newAdSystem 17 "Smaato" ""),
  (18, newAdSystem 18 "Taboola" ""),
  (19, newAdSystem 19 "TrustX" ""),
  (20, newAdSystem 20 "LKQD" ""),
  (21, newAdSystem 21 "Criteo" ""),
  (22, newAdSystem 22 "Exponential" ""),
  (23, newAdSystem 23 "Sovrn" ""),
  (24, newAdSystem 24 "RhythmOne" ""),
  (25, newAdSystem 25 "Yieldbot" ""),
  (26, newAdSystem 26 "Technorati" ""),
  (27, newAdSystem 27 "Bidfluence" ""),
  (28, newAdSystem 28 "Switch Concepts" ""),
  (29, newAdSystem 29 "BrightRoll from Yahoo!" "btrll.com"),
  (30, newAdSystem 30 "Conversant" ""),
  (31, newAdSystem 31 "Sonobi" ""),
  (32, newAdSystem 32 "Spoutable" ""),
  (33, newAdSystem 33 "FreeWheel" "freewheel.tv"),
  (34, newAdSystem 34 "Connatix" ""),
  (35, newAdSystem 35 "Centro Brand Exchange" ""),
  (36, newAdSystem 36 "Positive Mobile" ""),
  (37, newAdSystem 37 "MemeGlobal" ""),
  (38, newAdSystem 38 "Kixer" ""),
  (39, newAdSystem 39 "Sekindo" ""),
  (40, newAdSystem 40 "Improve Digital" "improvedigital.com"),
  (41, newAdSystem 41 "AdForm" ""),
  (42, newAdSystem 42 "MADS" ""),
  (43, newAdSystem 43 "Inneractive" "inner-active.com"),
  (44, newAdSystem 44 "SpotX" "spotx.tv,spotxchange.com"),
  (45, newAdSystem 45 "StreamRail" ""),
  (46, newAdSystem 46 "MediaMath" ""),
  (47, newAdSystem 47 "AdYouLike" ""),
  (48, newAdSystem 48 "Index Exchange" "indexexchange.com"),
  (49, newAdSystem 49 "e-Planning" ""),
  (50, newAdSystem 50 "Kiosked" ""),
  (51, newAdSystem 51 "UnrulyX" ""),
  (52, newAdSystem 52 "Brightcom" ""),
  (53, newAdSystem 53 "PowerInbox" ""),
  (54, newAdSystem 54 "Fyber" "fyber.com"),
  (55, newAdSystem 55 "TidalTV" ""),
  (56, newAdSystem 56 "Nativo" ""),
  (57, newAdSystem 57 "Media.net" ""),
  (58, newAdSystem 58 "YuMe" ""),
  (59, newAdSystem 59 "RevContent" ""),
  (60, newAdSystem 60 "Outbrain" ""),
  (61, newAdSystem 61 "Zedo" "zedo.com"),
  (62, newAdSystem 62 "SlimCut Media" ""),
  (63, newAdSystem 63 "Bidtellect" ""),
  (64, newAdSystem 64 "Smart RTB+" "smartadserver.com"),
  (65, newAdSystem 65 "LoopMe" "loopme.com"),
  (66, newAdSystem 66 "Vidazoo" ""),
  (67, newAdSystem 67 "Videoflare" ""),
  (68, newAdSystem 68 "Gemini from Yahoo!" "yahoo.com"),
  (69, newAdSystem 69 "PixFuture" ""),
  (70, newAdSystem 70 "OMS" ""),
  (71, newAdSystem 71 "Ströer" ""),
  (73, newAdSystem 73 "C1X" ""),
  (74, newAdSystem 74 "Synacor" ""),
  (76, newAdSystem 76 "Videology" ""),
  (77, newAdSystem 77 "Telaria (fka Tremor Video)" "tremorhub.com"),
  (78, newAdSystem 78 "Genesis Media" "altitude-arena.com"),
  (80, newAdSystem 80 "Imonomy" ""),
  (81, newAdSystem 81 "Komoona" ""),
  (82, newAdSystem 82 "SpringServe" ""),
  (83, newAdSystem 83 "TripleLift" ""),
  (84, newAdSystem 84 "AppNexus" "appnexus.com"),
  (85, newAdSystem 85 "NTV" ""),
  (86, newAdSystem 86 "COMET" ""),
  (87, newAdSystem 87 "Undertone" ""),
  (88, newAdSystem 88 "One by AOL: Video" "advertising.com"),
  (89, newAdSystem 89 "Algovid" ""),
  (90, newAdSystem 90 "Lockerdome" ""),
  (91, newAdSystem 91 "Widespace" ""),
  (92, newAdSystem 92 "Sortable" ""),
  (93, newAdSystem 93 "Mobfox" ""),
  (94, newAdSystem 94 "Teads" "teads.tv"),
  (95, newAdSystem 95 "PulsePoint" "contextweb.com"),
  (96, newAdSystem 96 "District M" ""),
  (97, newAdSystem 97 "Sharethrough" ""),
  (98, newAdSystem 98 "Adfrontiers" ""),
  (99, newAdSystem 99 "Ad3media" ""),
  (100, newAdSystem 100 "ADMIZED" ""),
  (101, newAdSystem 101 "Twiago" ""),
  (102, newAdSystem 102 "Xapads" ""),
  (104, newAdSystem 104 "Adstir" ""),
  (105, newAdSystem 105 "Yieldlab" ""),
  (107, newAdSystem 107 "Ad6Media" ""),
  (108, newAdSystem 108 "Adbistro" ""),
  (109, newAdSystem 109 "AdColony" ""),
  (110, newAdSystem 110 "Fluct" ""),
  (111, newAdSystem 111 "Adman Media" ""),
  (112, newAdSystem 112 "AdMedia" ""),
  (113, newAdSystem 113 "AdMixer" ""),
  (114, newAdSystem 114 "NOT IN USE" ""),
  (115, newAdSystem 115 "Ads4Pics" ""),
  (117, newAdSystem 117 "Adunity" ""),
  (118, newAdSystem 118 "AMM Media Marketing" ""),
  (119, newAdSystem 119 "Advertise.com" ""),
  (120, newAdSystem 120 "Aerserv" ""),
  (121, newAdSystem 121 "AndBeyond.Media" ""),
  (122, newAdSystem 122 "appTV" ""),
  (123, newAdSystem 123 "ucfunnel" ""),
  (124, newAdSystem 124 "WideOrbit" ""),
  (125, newAdSystem 125 "Aximus" ""),
  (126, newAdSystem 126 "BaronsMedia" ""),
  (128, newAdSystem 128 "Streamlyn" ""),
  (129, newAdSystem 129 "Bidtheater" ""),
  (131, newAdSystem 131 "Buy Sell Ads" ""),
  (132, newAdSystem 132 "Carambola" ""),
  (133, newAdSystem 133 "Cedato" ""),
  (134, newAdSystem 134 "Clickio" ""),
  (135, newAdSystem 135 "Collective" ""),
  (136, newAdSystem 136 "Adimia" ""),
  (137, newAdSystem 137 "Converge-Digital" ""),
  (138, newAdSystem 138 "Crimtan" ""),
  (139, newAdSystem 139 "Defy" ""),
  (141, newAdSystem 141 "DistroScale" ""),
  (142, newAdSystem 142 "DynAdmic" ""),
  (144, newAdSystem 144 "EADV" ""),
  (145, newAdSystem 145 "Easy Platform" ""),
  (146, newAdSystem 146 "eBoundServices" ""),
  (147, newAdSystem 147 "Electric Sheep" ""),
  (148, newAdSystem 148 "FirstImpression.io" ""),
  (149, newAdSystem 149 "Exclude" ""),
  (150, newAdSystem 150 "Get Intent" ""),
  (151, newAdSystem 151 "Glu Company" ""),
  (152, newAdSystem 152 "GMO SSP" ""),
  (153, newAdSystem 153 "Browsi" ""),
  (154, newAdSystem 154 "Gourmet Ads" ""),
  (155, newAdSystem 155 "Hiro Media" ""),
  (156, newAdSystem 156 "iBillboard" ""),
  (157, newAdSystem 157 "Increase Rev" ""),
  (158, newAdSystem 158 "Infolinks" ""),
  (159, newAdSystem 159 "Insticator" ""),
  (160, newAdSystem 160 "JustPremium" ""),
  (161, newAdSystem 161 "JWPlayer" ""),
  (162, newAdSystem 162 "KeenKale" ""),
  (163, newAdSystem 163 "Lifestreet" ""),
  (164, newAdSystem 164 "Linicom" ""),
  (165, newAdSystem 165 "MadAdsMedia" ""),
  (166, newAdSystem 166 "Vuble" "mediabong.com"),
  (167, newAdSystem 167 "Deguate" ""),
  (169, newAdSystem 169 "Mgid" ""),
  (170, newAdSystem 170 "Monarch Ads" ""),
  (171, newAdSystem 171 "Netseer" ""),
  (173, newAdSystem 173 "Ooyala" ""),
  (174, newAdSystem 174 "Optimatic" ""),
  (175, newAdSystem 175 "Padsquad" ""),
  (176, newAdSystem 176 "Paypal" ""),
  (177, newAdSystem 177 "Playtouch" ""),
  (178, newAdSystem 178 "Paywire" ""),
  (179, newAdSystem 179 "PowerLinks" ""),
  (180, newAdSystem 180 "NexTag" ""),
  (181, newAdSystem 181 "Purch" ""),
  (182, newAdSystem 182 "Q1 Media" ""),
  (183, newAdSystem 183 "Quantcast" ""),
  (184, newAdSystem 184 "Quantum Native" ""),
  (185, newAdSystem 185 "ReklamStore" ""),
  (186, newAdSystem 186 "RekMob" ""),
  (188, newAdSystem 188 "Smartclip" ""),
  (189, newAdSystem 189 "Smarty Ads" ""),
  (190, newAdSystem 190 "Somo Audience" "somoaudience.com"),
  (191, newAdSystem 191 "Spot.im" ""),
  (192, newAdSystem 192 "Sprout" ""),
  (193, newAdSystem 193 "SSPHwy" ""),
  (194, newAdSystem 194 "StartApp" ""),
  (195, newAdSystem 195 "SNT Media" ""),
  (196, newAdSystem 196 "TabletMedia" ""),
  (197, newAdSystem 197 "Tappx" ""),
  (198, newAdSystem 198 "The Moneytizer" ""),
  (199, newAdSystem 199 "The Trade Desk" ""),
  (200, newAdSystem 200 "Thrive" ""),
  (201, newAdSystem 201 "Tisoomi" ""),
  (202, newAdSystem 202 "Tribal Fusion" ""),
  (203, newAdSystem 203 "Trion Interactive" ""),
  (204, newAdSystem 204 "TrueX" ""),
  (205, newAdSystem 205 "Turf Digital" ""),
  (206, newAdSystem 206 "UBM" ""),
  (207, newAdSystem 207 "Underdog Media" ""),
  (208, newAdSystem 208 "Alliance Data" ""),
  (209, newAdSystem 209 "Verta Media" ""),
  (210, newAdSystem 210 "Vertoz" ""),
  (211, newAdSystem 211 "Video Intelligence" ""),
  (212, newAdSystem 212 "Fidelity Media" ""),
  (213, newAdSystem 213 "Yandex" ""),
  (214, newAdSystem 214 "Yellow Hammer" ""),
  (215, newAdSystem 215 "RockYou" "rockyou.net"),
  (216, newAdSystem 216 "Innity" "innity.com"),
  (217, newAdSystem 217 "Native Ads" "nativeads.com"),
  (218, newAdSystem 218 "RichAudience" "richaudience.com"),
  (219, newAdSystem 219 "AdStanding" "adstanding.com"),
  (220, newAdSystem 220 "Mass2" "www.mass2.com"),
  (221, newAdSystem 221 "RTK.io" ""),
  (222, newAdSystem 222 "Atomx" "atomx.com"),
  (223, newAdSystem 223 "Addroplet.com " "Addroplet.com "),
  (224, newAdSystem 224 "Liondigitalserving.com" "Liondigitalserving.com"),
  (225, newAdSystem 225 "sulvo.com" "sulvo.com"),
  (226, newAdSystem 226 "surgeprice.com" "surgeprice.com"),
  (227, newAdSystem 227 "mediabong.com" "mediabong.com"),
  (228, newAdSystem 228 "Seracast" "babaroll.com"),
  (229, newAdSystem 229 "Juice Nectar" "juicenectar.com"),
  (230, newAdSystem 230 "AdPone" "adpone.com"),
  (231, newAdSystem 231 "OneTag" "onetag.com"),
  (232, newAdSystem 232 "Between Exchange" "betweendigital.com"),
  (233, newAdSystem 233 "Experian" "experian.com"),
  (234, newAdSystem 234 "GammaSSP" "gammassp.com"),
  (235, newAdSystem 235 "Cynogage" "cynogage.com"),
  (236, newAdSystem 236 "DeepIntent" "deepintent.com"),
  (237, newAdSystem 237 "Adversal" "adversal.com"),
  (238, newAdSystem 238 "vmg.host" "vmg.host"),
  (239, newAdSystem 239 "Vdopia" ""),
  (240, newAdSystem 240 "Yengo" ""),
  (241, newAdSystem 241 "Backbeatmedia" ""),
  (242, newAdSystem 242 "Videmob by Cydersoft" ""),
  (243, newAdSystem 243 "Ligatus" ""),
  (244, newAdSystem 244 "Vidstart" "")
]

/-- The map literal that `init` assigns to `adSystemDomains`, entry by entry in source order. -/
def adSystemDomains : List (String × adSystemDomain) := [
  ("rubicon.com", newAdSystemDomain "rubicon.com" 1),
  ("fastlane.rubiconproject.com", newAdSystemDomain "fastlane.rubiconproject.com" 1),
  ("ads.rubiconproject.com", newAdSystemDomain "ads.rubiconproject.com" 1),
  ("rubiconproject.com", newAdSystemDomain "rubiconproject.com" 1),
  ("rubiconproject.com<http://rubiconproject.com>", newAdSystemDomain "rubiconproject.com<http://rubiconproject.com>" 1),
  ("33across.com", newAdSystemDomain "33across.com" 2),
  ("pubmatic.com", newAdSystemDomain "pubmatic.com" 3),
  ("apps.pubmatic.com", newAdSystemDomain "apps.pubmatic.com" 3),
  ("pubmatic", newAdSystemDomain "pubmatic" 3),
  ("openx.com", newAdSystemDomain "openx.com" 4),
  ("openx", newAdSystemDomain "openx" 4),
  ("openxebda", newAdSystemDomain "openxebda" 4),
  ("openxprebid", newAdSystemDomain "openxprebid" 4),
  ("openx.com<http://openx.com>", newAdSystemDomain "openx.com<http://openx.com>" 4),
  ("openx.net", newAdSystemDomain "openx.net" 4),
  ("facebook.com", newAdSystemDomain "facebook.com" 5),
  ("facebook", newAdSystemDomain "facebook" 5),
  ("facebook:facebook.com", newAdSystemDomain "facebook:facebook.com" 5),
  ("gumgum.com", newAdSystemDomain "gumgum.com" 6),
  ("kargo.com", newAdSystemDomain "kargo.com" 7),
  ("google.com", newAdSystemDomain "google.com" 8),
  ("googletagservices.com", newAdSystemDomain "googletagservices.com" 8),
  ("?google.com", newAdSystemDomain "?google.com" 8),
  ("adsense", newAdSystemDomain "adsense" 8),
  ("google.com/adsense", newAdSystemDomain "google.com/adsense" 8),
  ("google.com<http://google.com>", newAdSystemDomain "google.com<http://google.com>" 8),
  ("www.google.com/dfp", newAdSystemDomain "www.google.com/dfp" 8),
  ("brealtime.com", newAdSystemDomain "brealtime.com" 9),
  ("Brealtime", newAdSystemDomain "Brealtime" 9),
  ("brealtimegoogle", newAdSystemDomain "brealtimegoogle" 9),
  ("emxdgt.com105", newAdSystemDomain "emxdgt.com105" 9),
  ("amazon-adsystem.com", newAdSystemDomain "amazon-adsystem.com" 10),
  ("c.amazon-adsystem.com", newAdSystemDomain "c.amazon-adsystem.com" 10),
  ("advertising.amazon.com", newAdSystemDomain "advertising.amazon.com" 10),
  ("amazon.com", newAdSystemDomain "amazon.com" 10),
  ("a9.com", newAdSystemDomain "a9.com" 10),
  ("aps.amazon.com", newAdSystemDomain "aps.amazon.com" 10),
  ("adtech.com", newAdSystemDomain "adtech.com" 11),
  ("adtech.net", newAdSystemDomain "adtech.net" 11),
  ("aolcloud.net", newAdSystemDomain "aolcloud.net" 11),
  ("liveintent.com", newAdSystemDomain "liveintent.com" 12),
  ("yieldmo.com", newAdSystemDomain "yieldmo.com" 13),
  ("mopub.com", newAdSystemDomain "mopub.com" 14),
  ("aol.com", newAdSystemDomain "aol.com" 15),
  ("smartstream.tv", newAdSystemDomain "smartstream.tv" 16),
  ("smaato.com", newAdSystemDomain "smaato.com" 17),
  ("spx.smaato.com", newAdSystemDomain "spx.smaato.com" 17),
  ("taboola.com", newAdSystemDomain "taboola.com" 18),
  ("trustx.org", newAdSystemDomain "trustx.org" 19),
  ("sofia.trustx.org", newAdSystemDomain "sofia.trustx.org" 19),
  ("lkqd.net", newAdSystemDomain "lkqd.net" 20),
  ("lkqd.com", newAdSystemDomain "lkqd.com" 20),
  ("ad.lkqd.net", newAdSystemDomain "ad.lkqd.net" 20),
  ("criteo.com", newAdSystemDomain "criteo.com" 21),
  ("critero.com", newAdSystemDomain "critero.com" 21),
  ("criteo.net", newAdSystemDomain "criteo.net" 21),
  ("phillymag.com==criteo.com", newAdSystemDomain "phillymag.com==criteo.com" 21),
  ("exponential.com", newAdSystemDomain "exponential.com" 22),
  ("exponential.comi", newAdSystemDomain "exponential.comi" 22),
  ("xponential.com", newAdSystemDomain "xponential.com" 22),
  ("lijit.com", newAdSystemDomain "lijit.com" 23),
  ("meridian.sovrn.com", newAdSystemDomain "meridian.sovrn.com" 23),
  ("sovrn.com", newAdSystemDomain "sovrn.com" 23),
  ("lijit", newAdSystemDomain "lijit" 23),
  ("rhythmone.com", newAdSystemDomain "rhythmone.com" 24),
  ("1rx.io", newAdSystemDomain "1rx.io" 24),
  ("yldbt.com", newAdSystemDomain "yldbt.com" 25),
  ("technorati.com", newAdSystemDomain "technorati.com" 26),
  ("bidfluence.com", newAdSystemDomain "bidfluence.com" 27),
  ("beachfront.com", newAdSystemDomain "beachfront.com" 27),
  ("switch.com", newAdSystemDomain "switch.com" 28),
  ("switchconcept", newAdSystemDomain "switchconcept" 28),
  ("switchconcepts.com", newAdSystemDomain "switchconcepts.com" 28),
  ("brightroll.com", newAdSystemDomain "brightroll.com" 29),
  ("conversantmedia.com", newAdSystemDomain "conversantmedia.com" 30),
  ("go.sonobi.com", newAdSystemDomain "go.sonobi.com" 31),
  ("sonobi.com", newAdSystemDomain "sonobi.com" 31),
  ("*.go.sonobi.com", newAdSystemDomain "*.go.sonobi.com" 31),
  ("spoutable.com", newAdSystemDomain "spoutable.com" 32),
  ("freewheel.tv", newAdSystemDomain "freewheel.tv" 33),
  ("cdn.stickyadstv.com", newAdSystemDomain "cdn.stickyadstv.com" 33),
  ("stickyad:freewheel.tv", newAdSystemDomain "stickyad:freewheel.tv" 33),
  ("connatix.com", newAdSystemDomain "connatix.com" 34),
  ("t.brand-server.com", newAdSystemDomain "t.brand-server.com" 35),
  ("positivemobile.com", newAdSystemDomain "positivemobile.com" 36),
  ("memeglobal.com", newAdSystemDomain "memeglobal.com" 37),
  ("kixer.com", newAdSystemDomain "kixer.com" 38),
  ("sekindo.com", newAdSystemDomain "sekindo.com" 39),
  ("sekindo", newAdSystemDomain "sekindo" 39),
  ("360yield.com", newAdSystemDomain "360yield.com" 40),
  ("improvedigital.com", newAdSystemDomain "improvedigital.com" 40),
  ("adform.com", newAdSystemDomain "adform.com" 41),
  ("adform.net", newAdSystemDomain "adform.net" 41),
  ("adx.adform.net", newAdSystemDomain "adx.adform.net" 41),
  ("inner-active.com", newAdSystemDomain "inner-active.com" 43),
  ("spotxchange.com", newAdSystemDomain "spotxchange.com" 44),
  ("spotx.tv", newAdSystemDomain "spotx.tv" 44),
  ("streamrail.net", newAdSystemDomain "streamrail.net" 45),
  ("sdk.streamrail.com", newAdSystemDomain "sdk.streamrail.com" 45),
  ("mathtag.com", newAdSystemDomain "mathtag.com" 46),
  ("mediamath.com", newAdSystemDomain "mediamath.com" 46),
  ("adyoulike.com", newAdSystemDomain "adyoulike.com" 47),
  ("indexexchnage.com", newAdSystemDomain "indexexchnage.com" 48),
  ("indexexchange.com", newAdSystemDomain "indexexchange.com" 48),
  ("www.indexexchange.com", newAdSystemDomain "www.indexexchange.com" 48),
  ("indexechange.com", newAdSystemDomain "indexechange.com" 48),
  ("indexexchange(ebda)", newAdSystemDomain "indexexchange(ebda)" 48),
  ("indexexchange(pubmatic)", newAdSystemDomain "indexexchange(pubmatic)" 48),
  ("indexexchange(videossp)", newAdSystemDomain "indexexchange(videossp)" 48),
  ("index.com", newAdSystemDomain "index.com" 48),
  ("kiosked.com", newAdSystemDomain "kiosked.com" 50),
  ("ads.kiosked.com", newAdSystemDomain "ads.kiosked.com" 50),
  ("video.unrulymedia.com", newAdSystemDomain "video.unrulymedia.com" 51),
  ("brightcom.com", newAdSystemDomain "brightcom.com" 52),
  ("rs-stripe.com", newAdSystemDomain "rs-stripe.com" 53),
  ("fyber.com", newAdSystemDomain "fyber.com" 54),
  ("tidaltv.com", newAdSystemDomain "tidaltv.com" 55),
  ("nativo.com", newAdSystemDomain "nativo.com" 56),
  ("jadserve.postrelease.com", newAdSystemDomain "jadserve.postrelease.com" 56),
  ("media.net", newAdSystemDomain "media.net" 57),
  ("www.yumenetworks.com", newAdSystemDomain "www.yumenetworks.com" 58),
  ("yume.com", newAdSystemDomain "yume.com" 58),
  ("yumenetworks.com", newAdSystemDomain "yumenetworks.com" 58),
  ("revcontent.com", newAdSystemDomain "revcontent.com" 59),
  ("revontent.com", newAdSystemDomain "revontent.com" 59),
  ("outbrain.com", newAdSystemDomain "outbrain.com" 60),
  ("zedo.com", newAdSystemDomain "zedo.com" 61),
  ("freeskreen.com", newAdSystemDomain "freeskreen.com" 62),
  ("bidtellect.com", newAdSystemDomain "bidtellect.com" 63),
  ("smartadserver.com", newAdSystemDomain "smartadserver.com" 64),
  ("loopme.com", newAdSystemDomain "loopme.com" 65),
  ("vidazoo.com", newAdSystemDomain "vidazoo.com" 66),
  ("vidazoo", newAdSystemDomain "vidazoo" 66),
  ("videoflare.com", newAdSystemDomain "videoflare.com" 67),
  ("yahoo.com", newAdSystemDomain "yahoo.com" 68),
  ("pixfuture.com", newAdSystemDomain "pixfuture.com" 69),
  ("oms.eu", newAdSystemDomain "oms.eu" 70),
  ("stroeer.com", newAdSystemDomain "stroeer.com" 71),
  ("emxdgt.com", newAdSystemDomain "emxdgt.com" 9),
  ("c1exchange.com", newAdSystemDomain "c1exchange.com" 73),
  ("synacor.com", newAdSystemDomain "synacor.com" 74),
  ("sfx.freewheel.tv", newAdSystemDomain "sfx.freewheel.tv" 33),
  ("videologygroup.com", newAdSystemDomain "videologygroup.com" 76),
  ("tremorhub.com", newAdSystemDomain "tremorhub.com" 77),
  ("altitudedigital.com", newAdSystemDomain "altitudedigital.com" 78),
  ("platform.videologygroup.com", newAdSystemDomain "platform.videologygroup.com" 76),
  ("imonomy.com", newAdSystemDomain "imonomy.com" 80),
  ("komoona ltd", newAdSystemDomain "komoona ltd" 81),
  ("komoonaltd", newAdSystemDomain "komoonaltd" 81),
  ("springserve.com", newAdSystemDomain "springserve.com" 82),
  ("spingserve.com", newAdSystemDomain "spingserve.com" 82),
  ("triplelift.com", newAdSystemDomain "triplelift.com" 83),
  ("www.triplelift.com", newAdSystemDomain "www.triplelift.com" 83),
  ("ib.adnxs.com", newAdSystemDomain "ib.adnxs.com" 84),
  ("appnexus.com", newAdSystemDomain "appnexus.com" 84),
  ("appnexus", newAdSystemDomain "appnexus" 84),
  ("apnexus.com", newAdSystemDomain "apnexus.com" 84),
  ("appnexus.txt", newAdSystemDomain "appnexus.txt" 84),
  ("adnxs.com", newAdSystemDomain "adnxs.com" 84),
  ("appnexus.com<http://appnexus.com>", newAdSystemDomain "appnexus.com<http://appnexus.com>" 84),
  ("s.ntv.io/serve", newAdSystemDomain "s.ntv.io/serve" 85),
  ("coxmt.com", newAdSystemDomain "coxmt.com" 86),
  ("undertone.com", newAdSystemDomain "undertone.com" 87),
  ("advertising.com", newAdSystemDomain "advertising.com" 88),
  ("c.algovid.com", newAdSystemDomain "c.algovid.com" 89),
  ("lockerdome.com", newAdSystemDomain "lockerdome.com" 90),
  ("widespace.com", newAdSystemDomain "widespace.com" 91),
  ("deployads.com", newAdSystemDomain "deployads.com" 92),
  ("www.mobfox.com", newAdSystemDomain "www.mobfox.com" 93),
  ("mobfox.com", newAdSystemDomain "mobfox.com" 93),
  ("teads.tv", newAdSystemDomain "teads.tv" 94),
  ("teads.com", newAdSystemDomain "teads.com" 94),
  ("publishers.teads.tv", newAdSystemDomain "publishers.teads.tv" 94),
  ("contextweb.com", newAdSystemDomain "contextweb.com" 95),
  ("pulsepoint.com", newAdSystemDomain "pulsepoint.com" 95),
  ("pulsepoint", newAdSystemDomain "pulsepoint" 95),
  ("pulsepoint:contextweb.com", newAdSystemDomain "pulsepoint:contextweb.com" 95),
  ("districtm.com", newAdSystemDomain "districtm.com" 96),
  ("districtm.ca", newAdSystemDomain "districtm.ca" 96),
  ("districtm.io", newAdSystemDomain "districtm.io" 96),
  ("sharethrough.com", newAdSystemDomain "sharethrough.com" 97),
  ("media.adfrontiers.com", newAdSystemDomain "media.adfrontiers.com" 98),
  ("adfrontiers.com", newAdSystemDomain "adfrontiers.com" 98),
  ("media.adfrontiers", newAdSystemDomain "media.adfrontiers" 98),
  ("ad3media.com", newAdSystemDomain "ad3media.com" 99),
  ("ads.admized.com", newAdSystemDomain "ads.admized.com" 100),
  ("admized.com", newAdSystemDomain "admized.com" 100),
  ("a.twiago.com", newAdSystemDomain "a.twiago.com" 101),
  ("twiago.com", newAdSystemDomain "twiago.com" 101),
  ("xapads.com", newAdSystemDomain "xapads.com" 102),
  ("ad-stir.com", newAdSystemDomain "ad-stir.com" 104),
  ("ad.yieldlab.net", newAdSystemDomain "ad.yieldlab.net" 105),
  ("yieldlab.de", newAdSystemDomain "yieldlab.de" 105),
  ("yieldlab.net", newAdSystemDomain "yieldlab.net" 105),
  ("ad3.io", newAdSystemDomain "ad3.io" 99),
  ("ad6media.es", newAdSystemDomain "ad6media.es" 107),
  ("ad6media.fr", newAdSystemDomain "ad6media.fr" 107),
  ("www.ad6media.fr", newAdSystemDomain "www.ad6media.fr" 107),
  ("adbistro.com", newAdSystemDomain "adbistro.com" 108),
  ("adcolony.com", newAdSystemDomain "adcolony.com" 109),
  ("adingo.jp", newAdSystemDomain "adingo.jp" 110),
  ("adingo.jp<http://adingo.jp>", newAdSystemDomain "adingo.jp<http://adingo.jp>" 110),
  ("admanmedia.com", newAdSystemDomain "admanmedia.com" 111),
  ("admedia.com", newAdSystemDomain "admedia.com" 112),
  ("admixer.com", newAdSystemDomain "admixer.com" 113),
  ("admixer.net", newAdSystemDomain "admixer.net" 113),
  ("ads.stickyadstv.com", newAdSystemDomain "ads.stickyadstv.com" 33),
  ("ads4pics.com", newAdSystemDomain "ads4pics.com" 115),
  ("adtech.com<http://adtech.com>", newAdSystemDomain "adtech.com<http://adtech.com>" 11),
  ("aolcloud.com", newAdSystemDomain "aolcloud.com" 11),
  ("aolcloud.net<http://aolcloud.net>", newAdSystemDomain "aolcloud.net<http://aolcloud.net>" 11),
  ("adunity.com", newAdSystemDomain "adunity.com" 117),
  ("advbo.ammadv.it", newAdSystemDomain "advbo.ammadv.it" 118),
  ("Advertise.com", newAdSystemDomain "Advertise.com" 119),
  ("advertising.com<http://advertising.com>", newAdSystemDomain "advertising.com<http://advertising.com>" 88),
  ("aerserv.com", newAdSystemDomain "aerserv.com" 120),
  ("andbeyond.media", newAdSystemDomain "andbeyond.media" 121),
  ("app.tv", newAdSystemDomain "app.tv" 122),
  ("apptv.com", newAdSystemDomain "apptv.com" 122),
  ("aralego.com", newAdSystemDomain "aralego.com" 123),
  ("atemda.com", newAdSystemDomain "atemda.com" 124),
  ("aximusag", newAdSystemDomain "aximusag" 125),
  ("aximus.ch", newAdSystemDomain "aximus.ch" 125),
  ("baronsmedia.com", newAdSystemDomain "baronsmedia.com" 126),
  ("bidsxchange.com", newAdSystemDomain "bidsxchange.com" 128),
  ("bidtheatre.com", newAdSystemDomain "bidtheatre.com" 129),
  ("buysellads.com", newAdSystemDomain "buysellads.com" 131),
  ("carambo.la", newAdSystemDomain "carambo.la" 132),
  ("carambola.com", newAdSystemDomain "carambola.com" 132),
  ("cedato.com", newAdSystemDomain "cedato.com" 133),
  ("clickio.com", newAdSystemDomain "clickio.com" 134),
  ("collectiveuk.com", newAdSystemDomain "collectiveuk.com" 135),
  ("connectignite.com", newAdSystemDomain "connectignite.com" 136),
  ("converge-digital.com", newAdSystemDomain "converge-digital.com" 137),
  ("crimtan.com", newAdSystemDomain "crimtan.com" 138),
  ("defymedia.com", newAdSystemDomain "defymedia.com" 139),
  ("distrcitm.io", newAdSystemDomain "distrcitm.io" 96),
  ("districtmadexchange", newAdSystemDomain "districtmadexchange" 96),
  ("districtm", newAdSystemDomain "districtm" 96),
  ("districtm.net", newAdSystemDomain "districtm.net" 96),
  ("districtmio.com", newAdSystemDomain "districtmio.com" 96),
  ("distroscale.com", newAdSystemDomain "distroscale.com" 141),
  ("dynadmic", newAdSystemDomain "dynadmic" 142),
  ("e-planning.net", newAdSystemDomain "e-planning.net" 49),
  ("eadv.it", newAdSystemDomain "eadv.it" 144),
  ("easyplatform.com", newAdSystemDomain "easyplatform.com" 145),
  ("eboundservices.com", newAdSystemDomain "eboundservices.com" 146),
  ("electric-sheep.tv", newAdSystemDomain "electric-sheep.tv" 147),
  ("firstimpression.io", newAdSystemDomain "firstimpression.io" 148),
  ("geekexchange.com", newAdSystemDomain "geekexchange.com" 149),
  ("getintent.com", newAdSystemDomain "getintent.com" 150),
  ("glucompany.com", newAdSystemDomain "glucompany.com" 151),
  ("gmossp.jp", newAdSystemDomain "gmossp.jp" 152),
  ("gobrowsi.com", newAdSystemDomain "gobrowsi.com" 153),
  ("gourmetads.com", newAdSystemDomain "gourmetads.com" 154),
  ("hiro-media.com", newAdSystemDomain "hiro-media.com" 155),
  ("ibillboard.com", newAdSystemDomain "ibillboard.com" 156),
  ("increaserev.com", newAdSystemDomain "increaserev.com" 157),
  ("infolinks.com", newAdSystemDomain "infolinks.com" 158),
  ("insticator.com", newAdSystemDomain "insticator.com" 159),
  ("justpremium.com", newAdSystemDomain "justpremium.com" 160),
  ("jwdemandadexchange", newAdSystemDomain "jwdemandadexchange" 161),
  ("keenkale.com", newAdSystemDomain "keenkale.com" 162),
  ("lifestreet.com", newAdSystemDomain "lifestreet.com" 163),
  ("linicom", newAdSystemDomain "linicom" 164),
  ("madadsmedia.com", newAdSystemDomain "madadsmedia.com" 165),
  ("mediabong.net", newAdSystemDomain "mediabong.net" 166),
  ("mediadeguate.com", newAdSystemDomain "mediadeguate.com" 167),
  ("memevideoad.com", newAdSystemDomain "memevideoad.com" 37),
  ("stinger.memeglobal.com", newAdSystemDomain "stinger.memeglobal.com" 37),
  ("mgid.com", newAdSystemDomain "mgid.com" 169),
  ("monarchads.com", newAdSystemDomain "monarchads.com" 170),
  ("netseer.com", newAdSystemDomain "netseer.com" 171),
  ("oogle.com", newAdSystemDomain "oogle.com" 8),
  ("ooyala.com", newAdSystemDomain "ooyala.com" 173),
  ("optimatic.com", newAdSystemDomain "optimatic.com" 174),
  ("padsquad.com", newAdSystemDomain "padsquad.com" 175),
  ("paypal.com", newAdSystemDomain "paypal.com" 176),
  ("playtouch", newAdSystemDomain "playtouch" 177),
  ("playtouch2", newAdSystemDomain "playtouch2" 177),
  ("playwire.com", newAdSystemDomain "playwire.com" 178),
  ("powerlinks.com", newAdSystemDomain "powerlinks.com" 179),
  ("pubgears.com", newAdSystemDomain "pubgears.com" 180),
  ("purch.com", newAdSystemDomain "purch.com" 181),
  ("servebom.com", newAdSystemDomain "servebom.com" 181),
  ("q1media.com", newAdSystemDomain "q1media.com" 182),
  ("q1connect.com", newAdSystemDomain "q1connect.com" 182),
  ("quantcast.com", newAdSystemDomain "quantcast.com" 183),
  ("quantum-advertising.com", newAdSystemDomain "quantum-advertising.com" 184),
  ("reklamstore.com", newAdSystemDomain "reklamstore.com" 185),
  ("rekmob.com", newAdSystemDomain "rekmob.com" 186),
  ("smartadserver:smartadserver.com", newAdSystemDomain "smartadserver:smartadserver.com" 64),
  ("smartadsever.com", newAdSystemDomain "smartadsever.com" 64),
  ("smartclip.net", newAdSystemDomain "smartclip.net" 188),
  ("smartyads.com", newAdSystemDomain "smartyads.com" 189),
  ("somoaudience.com", newAdSystemDomain "somoaudience.com" 190),
  ("SpotIM", newAdSystemDomain "SpotIM" 191),
  ("sprout-ad.com", newAdSystemDomain "sprout-ad.com" 192),
  ("ssphwy.com", newAdSystemDomain "ssphwy.com" 193),
  ("startapp.com", newAdSystemDomain "startapp.com" 194),
  ("synapsys.us", newAdSystemDomain "synapsys.us" 195),
  ("tabletmedia.co.uk", newAdSystemDomain "tabletmedia.co.uk" 196),
  ("tappx.com", newAdSystemDomain "tappx.com" 197),
  ("themoneytizer.com", newAdSystemDomain "themoneytizer.com" 198),
  ("thetradedesk.com", newAdSystemDomain "thetradedesk.com" 199),
  ("thrive.plus", newAdSystemDomain "thrive.plus" 200),
  ("tisoomi-services.com", newAdSystemDomain "tisoomi-services.com" 201),
  ("tribalfusion.com", newAdSystemDomain "tribalfusion.com" 202),
  ("trion.com", newAdSystemDomain "trion.com" 203),
  ("trioninteractive.com", newAdSystemDomain "trioninteractive.com" 203),
  ("truex.com", newAdSystemDomain "truex.com" 204),
  ("turf.digital", newAdSystemDomain "turf.digital" 205),
  ("ubm.com", newAdSystemDomain "ubm.com" 206),
  ("udmserve.net", newAdSystemDomain "udmserve.net" 207),
  ("valueclickmedia.com", newAdSystemDomain "valueclickmedia.com" 208),
  ("vertamedia.com", newAdSystemDomain "vertamedia.com" 209),
  ("vertoz.com", newAdSystemDomain "vertoz.com" 210),
  ("vi.ai", newAdSystemDomain "vi.ai" 211),
  ("www.vi.ai", newAdSystemDomain "www.vi.ai" 211),
  ("x.fidelity-media.com", newAdSystemDomain "x.fidelity-media.com" 212),
  ("yandex.ru", newAdSystemDomain "yandex.ru" 213),
  ("yellowhammer.com", newAdSystemDomain "yellowhammer.com" 214),
  ("rockyou.com", newAdSystemDomain "rockyou.com" 215),
  ("rockyou.net", newAdSystemDomain "rockyou.net" 215),
  ("innity.com", newAdSystemDomain "innity.com" 216),
  ("innity.net", newAdSystemDomain "innity.net" 216),
  ("advenueplatform.com", newAdSystemDomain "advenueplatform.com" 216),
  ("nativeads.com", newAdSystemDomain "nativeads.com" 217),
  ("natiiveads.com", newAdSystemDomain "natiiveads.com" 217),
  ("richaudience.com", newAdSystemDomain "richaudience.com" 218),
  ("adstanding.com", newAdSystemDomain "adstanding.com" 219),
  ("www.mass2.com", newAdSystemDomain "www.mass2.com" 220),
  ("RTK.io", newAdSystemDomain "RTK.io" 221),
  ("atomx.com", newAdSystemDomain "atomx.com" 222),
  ("ato.mx", newAdSystemDomain "ato.mx" 222),
  ("rtb.ato.mx", newAdSystemDomain "rtb.ato.mx" 222),
  ("p.ato.mx", newAdSystemDomain "p.ato.mx" 222),
  ("addroplet.com", newAdSystemDomain "addroplet.com" 223),
  ("Liondigitalserving.com", newAdSystemDomain "Liondigitalserving.com" 224),
  ("sulvo.com", newAdSystemDomain "sulvo.com" 225),
  ("surgeprice.com", newAdSystemDomain "surgeprice.com" 226),
  ("mediabong.com", newAdSystemDomain "mediabong.com" 227),
  ("babaroll.com", newAdSystemDomain "babaroll.com" 228),
  ("juicenectar.com", newAdSystemDomain "juicenectar.com" 229),
  ("adpone.com", newAdSystemDomain "adpone.com" 230),
  ("onetag.com", newAdSystemDomain "onetag.com" 231),
  ("onetag-sys.com", newAdSystemDomain "onetag-sys.com" 231),
  ("betweendigital.com", newAdSystemDomain "betweendigital.com" 232),
  ("ads.betweendigital.com", newAdSystemDomain "ads.betweendigital.com" 232),
  ("experian.com", newAdSystemDomain "experian.com" 233),
  ("altitude-arena.com", newAdSystemDomain "altitude-arena.com" 78),
  ("gammassp.com", newAdSystemDomain "gammassp.com" 234),
  ("ambientdigitalgroup.com", newAdSystemDomain "ambientdigitalgroup.com" 234),
  ("cynogage.com", newAdSystemDomain "cynogage.com" 235),
  ("deepintent.com", newAdSystemDomain "deepintent.com" 236),
  ("adversal.com", newAdSystemDomain "adversal.com" 237),
  ("vmg.host", newAdSystemDomain "vmg.host" 238),
  ("Chocolateplatform.com", newAdSystemDomain "Chocolateplatform.com" 239),
  ("directadvert.ru", newAdSystemDomain "directadvert.ru" 240),
  ("backbeatmedia.com", newAdSystemDomain "backbeatmedia.com" 241),
  ("videmob.com", newAdSystemDomain "videmob.com" 242),
  ("ligadx.com", newAdSystemDomain "ligadx.com" 243),
  ("vidstart.com", newAdSystemDomain "vidstart.com" 244),
  ("mobileadtrading.com", newAdSystemDomain "mobileadtrading.com" 245)
]
/-! ## Operations -/

/-- The loop of `compareCName`: walks the split canonical names and stops at
the first one that, trimmed, is `lcDomain`. -/
def compareCNameLoop (lcDomain : String) : List String → Bool
  | [] => false
  | cName :: rest =>
    if TrimSpace cName = lcDomain then true else compareCNameLoop lcDomain rest

/-- The method `adSystem.compareCName`: compares the canonical name(s) of the ad
system with `domain`. -/
def adSystem.compareCName (uni : Char → Char) (a : adSystem) (domain : String) : Bool :=
  let lcDomain := ToLower uni domain
  let cNames := Split a.CanonicalDomain ","
  compareCNameLoop lcDomain cNames

/-- Go's `url.URL`: the string fields that `url.Parse` fills from the text of
the URL, each given by its bytes, since percent-decoding can leave bytes that
are no UTF-8 text. `User`, `RawPath`, `RawFragment` and the flags `ForceQuery`
and `OmitHost` are left out; the package reads `Host` only. -/
structure URL where
  Scheme : List Nat
  Opaque : List Nat
  Host : List Nat
  Path : List Nat
  RawQuery : List Nat
  Fragment : List Nat
deriving DecidableEq

/-- The function `validateDomainName`; `urlParse` stands for `url.Parse`, an
`Except.error` for its non-nil `err`. The `log.Printf` of the failure branch
writes a diagnostic and has no part in the result. -/
def validateDomainName (urlParse : String → Except String URL) (domain : String) : Bool :=
  if Index domain "://" ≠ -1 then false
  else
    match urlParse ("http://" ++ domain) with
    | .error _ => false
    | .ok u => u.Host == utf8 domain

/-- The fallback loop of `vaidateAdSystemCName`, `for _, adSystem := range
adSystems`, over the entries in the order the list gives them: stops with
`true` at the first ad system whose canonical name matches `domain`. Go leaves
the order of a map range unspecified; `scanAdSystems_perm` shows that the
result is the same for every order. -/
def scanAdSystems (uni : Char → Char) (domain : String) : List (Int × adSystem) → Bool
  | [] => false
  | (_, a) :: rest =>
    if a.compareCName uni domain then true else scanAdSystems uni domain rest

/-- The function `vaidateAdSystemCName`: `none` when `domain` is a known ad
system domain in its preferred form, else the error to report. -/
def vaidateAdSystemCName (uni : Char → Char) (domain : String) : Option String :=
  match adSystemDomains.lookup (ToLower uni domain) with
  | none =>
    if scanAdSystems uni domain adSystems then none
    else some ("Please verify that " ++ domain ++ " is a known exchange domain")
  | some d =>
    match adSystems.lookup d.ID with
    | none => some ("Please verify that " ++ domain ++ " is a known exchange domain")
    | some a =>
      if len a.CanonicalDomain > 0 then
        if a.compareCName uni domain then none
        else some (domain ++ " is not the preferred form of the exchange domain. Please consider using "
          ++ a.CanonicalDomain ++ " as the canonical domain name")
      else none

/-- The function `vaidateAdSystemCName` with the order of its fallback loop
made explicit: `order` lists the entries of `adSystems` as `range` yields
them. The two map lookups do not depend on any order. -/
def vaidateAdSystemCNameIn (uni : Char → Char) (order : List (Int × adSystem))
    (domain : String) : Option String :=
  match adSystemDomains.lookup (ToLower uni domain) with
  | none =>
    if scanAdSystems uni domain order then none
    else some ("Please verify that " ++ domain ++ " is a known exchange domain")
  | some d =>
    match adSystems.lookup d.ID with
    | none => some ("Please verify that " ++ domain ++ " is a known exchange domain")
    | some a =>
      if len a.CanonicalDomain > 0 then
        if a.compareCName uni domain then none
        else some (domain ++ " is not the preferred form of the exchange domain. Please consider using "
          ++ a.CanonicalDomain ++ " as the canonical domain name")
      else none

/-! ## Root domain -/

/-- The runes of `l` after its first `n` bytes: the worker of the slice
`s[n:]`, for `n` at a rune boundary. -/
def dropBytes : Nat → List Char → List Char
  | 0, l => l
  | _ + 1, [] => []
  | n + 1, c :: cs => dropBytes (n + 1 - c.utf8Size) cs

/-- The runes of `l` within its first `n` bytes: the worker of the slice
`s[0:n]`, for `n` at a rune boundary. -/
def takeBytes : Nat → List Char → List Char
  | 0, _ => []
  | _ + 1, [] => []
  | n + 1, c :: cs => c :: takeBytes (n + 1 - c.utf8Size) cs

/-- Go's slice `s[i:]`, with `i` a byte offset. -/
def sliceFrom (s : String) (i : Int) : String :=
  ⟨dropBytes i.toNat s.data⟩

/-- Go's slice `s[0:j]`, with `j` a byte offset. -/
def sliceTo (s : String) (j : Int) : String :=
  ⟨takeBytes j.toNat s.data⟩

/-- The closure `stripDomain` of `rootDomain`: removes the scheme, the path
and the port of `rawurl`, in this order. -/
def stripDomain (rawurl : String) : String :=
  -- remove schema
  let index := Index rawurl "://"
  let rawurl := if index ≠ -1 then sliceFrom rawurl (index + 3) else rawurl
  -- remove path
  let index := Index rawurl "/"
  let rawurl := if index ≠ -1 then sliceTo rawurl index else rawurl
  -- remove port
  let index := Index rawurl ":"
  let rawurl := if index ≠ -1 then sliceTo rawurl index else rawurl
  rawurl

/-- The function `rootDomain`. The two functions of package `publicsuffix` are
parameters: `EffectiveTLDPlusOne` gives the domain or an error,
`PublicSuffix` the suffix and a second result that `rootDomain` drops. The
result pairs the returned string with the returned `error`. -/
def rootDomain {β : Type} (EffectiveTLDPlusOne : String → Except String String)
    (PublicSuffix : String → String × β) (rawurl : String) : String × Option String :=
  match EffectiveTLDPlusOne (stripDomain rawurl) with
  | .error _ =>
    let tld := (PublicSuffix (stripDomain rawurl)).1
    (tld, none)
  | .ok _ =>
    -- extract top level domain
    match EffectiveTLDPlusOne (stripDomain rawurl) with
    | .ok domain => (domain, none)
    | .error err => ("", some err)

/-! ## The public-suffix library -/

deriving instance DecidableEq for Except

/-- Worker of `LastIndex`: `off` is the byte offset of the position examined,
`last` the offset of the latest match so far. -/
def lastIndexLoop (substr : List Char) : Nat → Int → List Char → Int
  | off, last, [] => if substr = [] then (off : Int) else last
  | off, last, c :: cs =>
    lastIndexLoop substr (off + c.utf8Size)
      (if substr.isPrefixOf (c :: cs) then (off : Int) else last) cs

/-- Go's `strings.LastIndex(s, substr)`: the byte offset of the last occurrence
of `substr` in `s`, or `-1` when there is none. -/
def LastIndex (s substr : String) : Int :=
  lastIndexLoop substr.data 0 (-1) s.data

/-- Go's `strings.HasPrefix`. -/
def HasPrefix (s pre : String) : Bool :=
  pre.data.isPrefixOf s.data

/-- Go's `strings.HasSuffix`. -/
def HasSuffix (s suf : String) : Bool :=
  suf.data.isSuffixOf s.data

/-- Go's `strings.Contains`. -/
def Contains (s substr : String) : Bool :=
  decide (0 ≤ Index s substr)

/-- The function `publicsuffix.EffectiveTLDPlusOne` of golang.org/x/net, written
out over `PublicSuffix`, the lookup in the public-suffix table, which stays a
parameter. The error texts stand for the library's, whose `%q` is rendered here
without quoting. -/
def EffectiveTLDPlusOne (PublicSuffix : String → String × Bool) (domain : String) :
    Except String String :=
  if HasPrefix domain "." ∨ HasSuffix domain "." ∨ Contains domain ".." then
    .error ("publicsuffix: empty label in domain " ++ domain)
  else
    let suffix := (PublicSuffix domain).1
    if len domain ≤ len suffix then
      .error ("publicsuffix: cannot derive eTLD+1 for domain " ++ domain)
    else
      let i := len domain - len suffix - 1
      if (utf8 domain).get? i ≠ some 0x2E then
        .error ("publicsuffix: invalid public suffix " ++ suffix ++ " for domain " ++ domain)
      else
        .ok (sliceFrom domain (1 + LastIndex (sliceTo domain i) "."))

/-! ## URL parsing

The function `url.Parse` of Go's package `net/url` and the functions it calls,
written out on byte strings after the library's source (the text of Go 1.13 to
1.24; earlier releases lack the control-character and port checks). An error
is given by a short text: the package tests it against `nil` only. -/

/-- The modes of `shouldEscape` and `unescape` (type `encoding`). -/
inductive encoding where
  | encodePath
  | encodePathSegment
  | encodeHost
  | encodeZone
  | encodeUserPassword
  | encodeQueryComponent
  | encodeFragment
deriving DecidableEq

/-- Whether byte `c` is an ASCII letter or digit. -/
def isAlnum (c : Nat) : Bool :=
  (0x61 ≤ c && c ≤ 0x7A) || (0x41 ≤ c && c ≤ 0x5A) || (0x30 ≤ c && c ≤ 0x39)

/-- The function `ishex`. -/
def ishex (c : Nat) : Bool :=
  (0x30 ≤ c && c ≤ 0x39) || (0x61 ≤ c && c ≤ 0x66) || (0x41 ≤ c && c ≤ 0x46)

/-- The function `unhex`. -/
def unhex (c : Nat) : Nat :=
  if 0x30 ≤ c ∧ c ≤ 0x39 then c - 0x30
  else if 0x61 ≤ c ∧ c ≤ 0x66 then c - 0x61 + 10
  else if 0x41 ≤ c ∧ c ≤ 0x46 then c - 0x41 + 10
  else 0

/-- The function `shouldEscape`: whether byte `c` has to be escaped when it
appears in the part of a URL that `mode` names. -/
def shouldEscape (c : Nat) (mode : encoding) : Bool :=
  -- unreserved characters (alphanum)
  if isAlnum c then false
  -- host allows sub-delims, ':', '[', ']', '<', '>' and '"'
  else if (mode = .encodeHost ∨ mode = .encodeZone) ∧
      c ∈ [0x21, 0x24, 0x26, 0x27, 0x28, 0x29, 0x2A, 0x2B, 0x2C, 0x3B, 0x3D, 0x3A, 0x5B, 0x5D,
        0x3C, 0x3E, 0x22] then false
  -- unreserved characters (mark): '-', '_', '.', '~'
  else if c ∈ [0x2D, 0x5F, 0x2E, 0x7E] then false
  -- reserved characters: '$', '&', '+', ',', '/', ':', ';', '=', '?', '@'
  else if c ∈ [0x24, 0x26, 0x2B, 0x2C, 0x2F, 0x3A, 0x3B, 0x3D, 0x3F, 0x40] ∧
      mode = .encodePath then c == 0x3F
  else if c ∈ [0x24, 0x26, 0x2B, 0x2C, 0x2F, 0x3A, 0x3B, 0x3D, 0x3F, 0x40] ∧
      mode = .encodePathSegment then c == 0x2F || c == 0x3B || c == 0x2C || c == 0x3F
  else if c ∈ [0x24, 0x26, 0x2B, 0x2C, 0x2F, 0x3A, 0x3B, 0x3D, 0x3F, 0x40] ∧
      mode = .encodeUserPassword then c == 0x40 || c == 0x2F || c == 0x3F || c == 0x3A
  else if c ∈ [0x24, 0x26, 0x2B, 0x2C, 0x2F, 0x3A, 0x3B, 0x3D, 0x3F, 0x40] ∧
      mode = .encodeQueryComponent then true
  else if c ∈ [0x24, 0x26, 0x2B, 0x2C, 0x2F, 0x3A, 0x3B, 0x3D, 0x3F, 0x40] ∧
      mode = .encodeFragment then false
  -- fragment allows '!', '(', ')', '*'
  else if mode = .encodeFragment ∧ c ∈ [0x21, 0x28, 0x29, 0x2A] then false
  -- everything else must be escaped
  else true

/-- The function `unescape`: checks the percent-escapes (and, for a host, the
plain bytes) of `s` and decodes them; the two passes of the source are done in
one, which fails at the same first offence. -/
def unescape (mode : encoding) : List Nat → Except String (List Nat)
  | [] => .ok []
  | c :: rest =>
    if c = 0x25 then
      match rest with
      | h1 :: h2 :: rest' =>
        if ishex h1 && ishex h2 then
          -- in the host %-encoding is for non-ASCII bytes only, "%25" apart
          if mode = .encodeHost ∧ unhex h1 < 8 ∧ ¬ (h1 = 0x32 ∧ h2 = 0x35) then
            .error "invalid URL escape"
          else if mode = .encodeZone ∧ ¬ (h1 = 0x32 ∧ h2 = 0x35) ∧
              unhex h1 * 16 + unhex h2 ≠ 0x20 ∧
              shouldEscape (unhex h1 * 16 + unhex h2) .encodeHost then
            .error "invalid URL escape"
          else
            match unescape mode rest' with
            | .ok t => .ok ((unhex h1 * 16 + unhex h2) :: t)
            | .error e => .error e
        else .error "invalid URL escape"
      | _ => .error "invalid URL escape"
    else if (mode = .encodeHost ∨ mode = .encodeZone) ∧ c < 0x80 ∧
        shouldEscape c .encodeHost then
      .error "invalid character in host name"
    else
      match unescape mode rest with
      | .ok t => .ok ((if c = 0x2B ∧ mode = .encodeQueryComponent then 0x20 else c) :: t)
      | .error e => .error e

/-- The function `stringContainsCTLByte`. -/
def stringContainsCTLByte (s : List Nat) : Bool :=
  s.any (fun b => b < 0x20 || b == 0x7F)

/-- Loop of `getScheme`: `i` is the offset of the byte examined. -/
def getSchemeLoop (rawURL : List Nat) : Nat → List Nat → Except String (List Nat × List Nat)
  | _, [] => .ok ([], rawURL)
  | i, c :: rest =>
    if (0x61 ≤ c ∧ c ≤ 0x7A) ∨ (0x41 ≤ c ∧ c ≤ 0x5A) then getSchemeLoop rawURL (i + 1) rest
    else if (0x30 ≤ c ∧ c ≤ 0x39) ∨ c = 0x2B ∨ c = 0x2D ∨ c = 0x2E then
      if i = 0 then .ok ([], rawURL) else getSchemeLoop rawURL (i + 1) rest
    else if c = 0x3A then
      if i = 0 then .error "missing protocol scheme" else .ok (rawURL.take i, rest)
    else
      -- an invalid character: there is no valid scheme
      .ok ([], rawURL)

/-- The function `getScheme`: splits `rawURL` into its scheme and the rest. -/
def getScheme (rawURL : List Nat) : Except String (List Nat × List Nat) :=
  getSchemeLoop rawURL 0 rawURL

/-- Go's `strings.Cut(s, sep)` for a one-byte `sep`: the text before and after
the first `sep`, all of `s` and nothing when there is none. -/
def cutByte (s : List Nat) (sep : Nat) : List Nat × List Nat :=
  (s.takeWhile (fun b => b != sep), (s.dropWhile (fun b => b != sep)).drop 1)

/-- Go's `strings.LastIndex(s, sep)` for a one-byte `sep`, `none` for `-1`. -/
def lastIndexByte : List Nat → Nat → Option Nat
  | [], _ => none
  | b :: rest, sep =>
    match lastIndexByte rest sep with
    | some i => some (i + 1)
    | none => if b = sep then some 0 else none

/-- Go's `strings.Index(s, substr)` on bytes, `none` for `-1`. -/
def indexBytes : List Nat → List Nat → Option Nat
  | [], substr => if substr = [] then some 0 else none
  | b :: rest, substr =>
    if substr.isPrefixOf (b :: rest) then some 0
    else (indexBytes rest substr).map (fun i => i + 1)

/-- Lower-casing of an ASCII scheme by `strings.ToLower`. -/
def lowerByte (b : Nat) : Nat :=
  if 0x41 ≤ b ∧ b ≤ 0x5A then b + 0x20 else b

/-- The function `validOptionalPort`: `port` is empty or ":" and digits. -/
def validOptionalPort (port : List Nat) : Bool :=
  match port with
  | [] => true
  | b :: digits => b == 0x3A && digits.all (fun d => 0x30 ≤ d && d ≤ 0x39)

/-- The function `validUserinfo`. -/
def validUserinfo (s : List Nat) : Bool :=
  s.all (fun r => isAlnum r ||
    r ∈ [0x2D, 0x2E, 0x5F, 0x3A, 0x7E, 0x21, 0x24, 0x26, 0x27, 0x28, 0x29, 0x2A, 0x2B, 0x2C,
      0x3B, 0x3D, 0x25, 0x40])

/-- The function `parseHost`. -/
def parseHost (host : List Nat) : Except String (List Nat) :=
  if host.head? = some 0x5B then
    -- an IP literal: "[fe80::1]", "[fe80::1%25en0]", "[fe80::1]:80"
    match lastIndexByte host 0x5D with
    | none => .error "missing ']' in host"
    | some i =>
      if !validOptionalPort (host.drop (i + 1)) then .error "invalid port after host"
      else
        match indexBytes (host.take i) [0x25, 0x32, 0x35] with
        | some zone =>
          match unescape .encodeHost (host.take zone) with
          | .error e => .error e
          | .ok host1 =>
            match unescape .encodeZone ((host.take i).drop zone) with
            | .error e => .error e
            | .ok host2 =>
              match unescape .encodeHost (host.drop i) with
              | .error e => .error e
              | .ok host3 => .ok (host1 ++ host2 ++ host3)
        | none => unescape .encodeHost host
  else
    match lastIndexByte host 0x3A with
    | some i =>
      if !validOptionalPort (host.drop i) then .error "invalid port after host"
      else unescape .encodeHost host
    | none => unescape .encodeHost host

/-- The function `parseAuthority`, its host result; the user information is
checked and unescaped as in the source, and then dropped. -/
def parseAuthority (authority : List Nat) : Except String (List Nat) :=
  match lastIndexByte authority 0x40 with
  | none => parseHost authority
  | some i =>
    match parseHost (authority.drop (i + 1)) with
    | .error e => .error e
    | .ok host =>
      let userinfo := authority.take i
      if !validUserinfo userinfo then .error "net/url: invalid userinfo"
      else if 0x3A ∉ userinfo then
        match unescape .encodeUserPassword userinfo with
        | .error e => .error e
        | .ok _ => .ok host
      else
        match unescape .encodeUserPassword (cutByte userinfo 0x3A).1 with
        | .error e => .error e
        | .ok _ =>
          match unescape .encodeUserPassword (cutByte userinfo 0x3A).2 with
          | .error e => .error e
          | .ok _ => .ok host

/-- The part of `parse` that follows the splitting off of scheme and query:
`rest` is what is left of the URL, to be read as opaque text or as authority
and path. -/
def parseRest (scheme rest rawQuery : List Nat) : Except String URL :=
  if rest.head? ≠ some 0x2F ∧ scheme ≠ [] then
    -- a rootless path is opaque
    .ok ⟨scheme, rest, [], [], rawQuery, []⟩
  else if rest.head? ≠ some 0x2F ∧ 0x3A ∈ (cutByte rest 0x2F).1 then
    .error "first path segment in URL cannot contain colon"
  else if (scheme ≠ [] ∨ ¬ [0x2F, 0x2F, 0x2F].isPrefixOf rest) ∧
      [0x2F, 0x2F].isPrefixOf rest then
    -- authority, rest = rest[2:] cut before its first '/'
    match parseAuthority ((rest.drop 2).takeWhile (fun b => b != 0x2F)) with
    | .error e => .error e
    | .ok host =>
      -- setPath
      match unescape .encodePath ((rest.drop 2).dropWhile (fun b => b != 0x2F)) with
      | .error e => .error e
      | .ok path => .ok ⟨scheme, [], host, path, rawQuery, []⟩
  else
    -- setPath
    match unescape .encodePath rest with
    | .error e => .error e
    | .ok path => .ok ⟨scheme, [], [], path, rawQuery, []⟩

/-- The function `parse` with `viaRequest` false, as `Parse` calls it. -/
def parse (rawURL : List Nat) : Except String URL :=
  if stringContainsCTLByte rawURL then .error "net/url: invalid control character in URL"
  else if rawURL = [0x2A] then .ok ⟨[], [], [], [0x2A], [], []⟩
  else
    -- split off a possible leading "http:", "mailto:", ...
    match getScheme rawURL with
    | .error e => .error e
    | .ok (scheme, rest) =>
      if rest.getLast? = some 0x3F ∧ rest.count 0x3F = 1 then
        -- a lone trailing '?': ForceQuery
        parseRest (scheme.map lowerByte) rest.dropLast []
      else
        parseRest (scheme.map lowerByte) (cutByte rest 0x3F).1 (cutByte rest 0x3F).2

/-- The function `url.Parse`, applied to the Go string `rawURL`. -/
def Parse (rawURL : String) : Except String URL :=
  -- cut off #frag
  match parse (cutByte (utf8 rawURL) 0x23).1 with
  | .error e => .error e
  | .ok url =>
    if (cutByte (utf8 rawURL) 0x23).2 = [] then .ok url
    else
      -- setFragment
      match unescape .encodeFragment (cutByte (utf8 rawURL) 0x23).2 with
      | .error e => .error e
      | .ok frag => .ok { url with Fragment := frag }

/-- A rune of a host name: an ASCII letter or digit, '-' or '.'. -/
def isHostRune (c : Char) : Bool :=
  isAlnum c.toNat || c == '-' || c == '.'

/-- A decimal digit. -/
def isDigitRune (c : Char) : Bool :=
  0x30 ≤ c.toNat && c.toNat ≤ 0x39

/-- An upper-case ASCII letter, `'A'..'Z'`. -/
def isUpperASCII (c : Char) : Bool :=
  65 ≤ c.toNat && c.toNat ≤ 90

/-! ## Properties -/

/-! ### Byte length -/

theorem len_pos_iff (s : String) : 0 < len s ↔ s ≠ "" := by
  unfold len
  obtain ⟨l⟩ := s
  cases l with
  | nil => simp [String.utf8ByteSize, String.utf8ByteSize.go]
  | cons c cs =>
    have hc := Char.utf8Size_pos c
    have hne : String.mk (c :: cs) ≠ "" := by
      intro h
      have := congrArg String.data h
      simp at this
    simp only [String.utf8ByteSize, String.utf8ByteSize.go, ne_eq, hne, not_false_eq_true,
      iff_true]
    omega

/-! ### Lower-casing of ASCII strings does not depend on the Unicode tables -/

theorem lowerRune_of_lt (uni : Char → Char) (c : Char) (h : c.toNat < 128) :
    lowerRune uni c = lowerRune id c := by
  simp [lowerRune, h]

theorem ToLower_of_isASCII (uni : Char → Char) (s : String) (h : isASCII s = true) :
    ToLower uni s = ToLower id s := by
  unfold ToLower
  congr 1
  apply List.map_congr_left
  intro c hc
  apply lowerRune_of_lt
  have := (List.all_eq_true.mp h) c hc
  simpa using this

theorem compareCName_of_isASCII (uni : Char → Char) (a : adSystem) (s : String)
    (h : isASCII s = true) : a.compareCName uni s = a.compareCName id s := by
  unfold adSystem.compareCName
  rw [ToLower_of_isASCII uni s h]

theorem scanAdSystems_of_isASCII (uni : Char → Char) (s : String) (h : isASCII s = true)
    (l : List (Int × adSystem)) : scanAdSystems uni s l = scanAdSystems id s l := by
  induction l with
  | nil => rfl
  | cons e rest ih =>
    obtain ⟨k, a⟩ := e
    simp only [scanAdSystems, compareCName_of_isASCII uni a s h, ih]

theorem vaidateAdSystemCName_of_isASCII (uni : Char → Char) (s : String)
    (h : isASCII s = true) : vaidateAdSystemCName uni s = vaidateAdSystemCName id s := by
  unfold vaidateAdSystemCName
  rw [ToLower_of_isASCII uni s h, scanAdSystems_of_isASCII uni s h]
  split
  · rfl
  · split
    · rfl
    · rw [compareCName_of_isASCII uni _ s h]

/-! ### Dependence of the resolver on the lower-cased input only -/

theorem compareCName_congr (uni : Char → Char) (a : adSystem) (d1 d2 : String)
    (h : ToLower uni d1 = ToLower uni d2) :
    a.compareCName uni d1 = a.compareCName uni d2 := by
  unfold adSystem.compareCName
  rw [h]

theorem scanAdSystems_congr (uni : Char → Char) (d1 d2 : String)
    (h : ToLower uni d1 = ToLower uni d2) (l : List (Int × adSystem)) :
    scanAdSystems uni d1 l = scanAdSystems uni d2 l := by
  induction l with
  | nil => rfl
  | cons e rest ih =>
    obtain ⟨k, a⟩ := e
    simp only [scanAdSystems, compareCName_congr uni a d1 d2 h, ih]

theorem vaidateAdSystemCName_eq_none_congr (uni : Char → Char) (d1 d2 : String)
    (h : ToLower uni d1 = ToLower uni d2) :
    vaidateAdSystemCName uni d1 = none ↔ vaidateAdSystemCName uni d2 = none := by
  unfold vaidateAdSystemCName
  rw [h, scanAdSystems_congr uni d1 d2 h]
  cases adSystemDomains.lookup (ToLower uni d2) with
  | none =>
    dsimp only
    cases scanAdSystems uni d2 adSystems <;> simp
  | some e =>
    dsimp only
    cases adSystems.lookup e.ID with
    | none => simp
    | some a =>
      dsimp only
      rw [compareCName_congr uni a d1 d2 h]
      by_cases hl : len a.CanonicalDomain > 0
      · cases a.compareCName uni d2 <;> simp [hl]
      · simp [hl]

/-! ### The two loops as searches -/

theorem compareCNameLoop_eq_true_iff (lc : String) (l : List String) :
    compareCNameLoop lc l = true ↔ ∃ m ∈ l, TrimSpace m = lc := by
  induction l with
  | nil => simp [compareCNameLoop]
  | cons c rest ih =>
    unfold compareCNameLoop
    by_cases hc : TrimSpace c = lc
    · simp [hc]
    · simp [hc, ih]

theorem compareCName_eq_true_iff (uni : Char → Char) (a : adSystem) (d : String) :
    a.compareCName uni d = true ↔
      ∃ m ∈ Split a.CanonicalDomain ",", TrimSpace m = ToLower uni d := by
  unfold adSystem.compareCName
  exact compareCNameLoop_eq_true_iff _ _

theorem scanAdSystems_eq_true_iff (uni : Char → Char) (d : String)
    (l : List (Int × adSystem)) :
    scanAdSystems uni d l = true ↔ ∃ e ∈ l, e.2.compareCName uni d = true := by
  induction l with
  | nil => simp [scanAdSystems]
  | cons e rest ih =>
    obtain ⟨k, a⟩ := e
    unfold scanAdSystems
    by_cases hc : a.compareCName uni d = true
    · simp [hc]
    · simp [hc, ih]

theorem scanAdSystems_perm (uni : Char → Char) (d : String)
    (l1 l2 : List (Int × adSystem)) (h : l1.Perm l2) :
    scanAdSystems uni d l1 = scanAdSystems uni d l2 := by
  rw [Bool.eq_iff_iff, scanAdSystems_eq_true_iff, scanAdSystems_eq_true_iff]
  constructor
  · rintro ⟨e, he, hc⟩
    exact ⟨e, h.mem_iff.mp he, hc⟩
  · rintro ⟨e, he, hc⟩
    exact ⟨e, h.mem_iff.mpr he, hc⟩

/-! ### Facts read off the tables -/

/-- A property of every entry of a list, checked on consecutive chunks of `k`
entries. -/
theorem forall_mem_of_chunks {α : Type} (P : α → Prop) (l : List α) (k n : Nat)
    (hlen : l.length ≤ k * n)
    (h : ∀ i < n, ∀ e ∈ (l.drop (k * i)).take k, P e) : ∀ e ∈ l, P e := by
  intro e he
  obtain ⟨j, hj⟩ := List.mem_iff_getElem?.mp he
  have hjl : j < l.length := by
    by_contra hge
    rw [List.getElem?_eq_none (by omega)] at hj
    cases hj
  have hk : 0 < k := by
    rcases Nat.eq_zero_or_pos k with h0 | h0
    · subst h0
      rw [Nat.zero_mul] at hlen
      omega
    · exact h0
  have hi : j / k < n := Nat.div_lt_of_lt_mul (by omega)
  apply h (j / k) hi
  rw [List.mem_iff_getElem?]
  refine ⟨j % k, ?_⟩
  rw [List.getElem?_take_of_lt (Nat.mod_lt j hk), List.getElem?_drop, Nat.div_add_mod]
  exact hj

theorem adSystemDomains_isASCII : ∀ e ∈ adSystemDomains, isASCII e.1 = true := by
  decide!

theorem adSystemDomains_nonCanonical : ∀ e ∈ adSystemDomains, ∀ a ∈ adSystems.lookup e.2.ID,
    a.CanonicalDomain ≠ "" → e.1 ∉ (Split a.CanonicalDomain ",").map TrimSpace →
    vaidateAdSystemCName id e.1 = some (e.1 ++
      " is not the preferred form of the exchange domain. Please consider using "
      ++ a.CanonicalDomain ++ " as the canonical domain name") := by
  refine forall_mem_of_chunks _ adSystemDomains 13 28 (by decide!) ?_
  intro i hi
  interval_cases i <;> decide!

theorem example_com_no_alias : ∀ e ∈ adSystemDomains, e.1 ≠ ToLower id "Example.COM" := by
  decide!

theorem example_com_no_canonical : ∀ e ∈ adSystems,
    ∀ m ∈ Split e.2.CanonicalDomain ",", TrimSpace m ≠ ToLower id "Example.COM" := by
  decide!

/-- Every trimmed member of a declared canonical domain, those of ad systems
223 and 224 apart, is ASCII and is accepted by the resolver. -/
theorem adSystems_canonical_accepted : ∀ e ∈ adSystems, e.2.CanonicalDomain ≠ "" →
    e.1 ≠ 223 → e.1 ≠ 224 → ∀ m ∈ (Split e.2.CanonicalDomain ",").map TrimSpace,
      isASCII m = true ∧ vaidateAdSystemCName id m = none := by
  refine forall_mem_of_chunks _ adSystems 11 21 (by decide!) ?_
  intro i hi
  interval_cases i <;> decide!

/-- Two ad systems with different IDs that both declare a canonical domain
share no trimmed member of their canonical lists other than "mediabong.com". -/
theorem adSystems_shared_member : ∀ e1 ∈ adSystems, e1.2.CanonicalDomain ≠ "" →
    ∀ e2 ∈ adSystems, e2.2.CanonicalDomain ≠ "" → e1.1 ≠ e2.1 →
    ∀ m ∈ (Split e1.2.CanonicalDomain ",").map TrimSpace,
      m ∈ (Split e2.2.CanonicalDomain ",").map TrimSpace → m = "mediabong.com" := by
  refine forall_mem_of_chunks _ adSystems 11 21 (by decide!) ?_
  intro i hi
  interval_cases i <;> decide!

/-- Away from ad systems 223 and 224, an input equal, ignoring letter case, to
a trimmed member of an ad system's declared canonical domain is accepted. -/
theorem vaidateAdSystemCName_canonical_accepted (uni : Char → Char)
    (e : Int × adSystem) (he : e ∈ adSystems) (hne : e.2.CanonicalDomain ≠ "")
    (h223 : e.1 ≠ 223) (h224 : e.1 ≠ 224)
    (m : String) (hm : m ∈ (Split e.2.CanonicalDomain ",").map TrimSpace)
    (d : String) (hd : ToLower uni d = ToLower uni m) :
    vaidateAdSystemCName uni d = none := by
  obtain ⟨hascii, hnone⟩ := adSystems_canonical_accepted e he hne h223 h224 m hm
  rw [vaidateAdSystemCName_eq_none_congr uni d m hd,
    vaidateAdSystemCName_of_isASCII uni m hascii]
  exact hnone

/-! ### Substring search -/

theorem indexLoop_ne_neg_one (substr q : List Char) :
    ∀ (p : List Char) (off : Nat), indexLoop substr off (p ++ substr ++ q) ≠ -1 := by
  intro p
  induction p with
  | nil =>
    intro off
    cases hl : ([] ++ substr ++ q) with
    | nil =>
      have hs : substr = [] := by
        cases substr with
        | nil => rfl
        | cons c cs => simp at hl
      simp only [indexLoop, hs, if_true]
      omega
    | cons c cs =>
      have hp : substr.isPrefixOf (c :: cs) = true := by
        rw [← hl, List.isPrefixOf_iff_prefix]
        simp
      simp only [indexLoop, hp, if_true]
      omega
  | cons c p ih =>
    intro off
    simp only [List.cons_append, indexLoop]
    split
    · omega
    · exact ih _

theorem Index_ne_neg_one (p substr q : String) : Index (p ++ substr ++ q) substr ≠ -1 := by
  unfold Index
  simp only [String.data_append]
  exact indexLoop_ne_neg_one _ _ _ _

/-! ### The two error texts never coincide -/

theorem unknown_ne_nonCanonical (d d' c : String) :
    "Please verify that " ++ d ++ " is a known exchange domain" ≠
      d' ++ " is not the preferred form of the exchange domain. Please consider using "
        ++ c ++ " as the canonical domain name" := by
  intro h
  have h1 : ("Please verify that " ++ d ++ " is a known exchange domain").data.getLast?
      = some 'n' := by
    have : " is a known exchange domain".data.getLast? = some 'n' := by decide
    rw [String.data_append, List.getLast?_append, this]
    rfl
  have h2 : (d' ++ " is not the preferred form of the exchange domain. Please consider using "
      ++ c ++ " as the canonical domain name").data.getLast? = some 'e' := by
    have : " as the canonical domain name".data.getLast? = some 'e' := by decide
    rw [String.data_append, List.getLast?_append, this]
    rfl
  rw [h, h2] at h1
  exact absurd h1 (by decide)

/-! ## The claims -/

/-- C1 (the code breaks it): a domain equal, ignoring letter case, to a member
of an ad system's canonical set should be accepted. Ad system 224 declares the
canonical domain "Liondigitalserving.com"; the resolver rejects that very
string, and its lower-case spelling, as an unknown exchange, and it answers
"addroplet.com", which differs only by case from the canonical domain of ad
system 223, with the not-preferred-form error. -/
theorem vaidateAdSystemCName_canonical_rejected (uni : Char → Char) :
    (224, newAdSystem 224 "Liondigitalserving.com" "Liondigitalserving.com") ∈ adSystems ∧
    "Liondigitalserving.com" ∈ (Split "Liondigitalserving.com" ",").map TrimSpace ∧
    vaidateAdSystemCName uni "Liondigitalserving.com" =
      some "Please verify that Liondigitalserving.com is a known exchange domain" ∧
    vaidateAdSystemCName uni "liondigitalserving.com" =
      some "Please verify that liondigitalserving.com is a known exchange domain" ∧
    (223, newAdSystem 223 "Addroplet.com " "Addroplet.com ") ∈ adSystems ∧
    vaidateAdSystemCName uni "addroplet.com" =
      some ("addroplet.com is not the preferred form of the exchange domain. " ++
        "Please consider using Addroplet.com  as the canonical domain name") := by
  refine ⟨by decide, by decide, ?_, ?_, by decide, ?_⟩
  · rw [vaidateAdSystemCName_of_isASCII uni _ (by decide)]
    decide!
  · rw [vaidateAdSystemCName_of_isASCII uni _ (by decide)]
    decide!
  · rw [vaidateAdSystemCName_of_isASCII uni _ (by decide)]
    decide!

/-- C2 (the code breaks it): an alias of the table whose ad system has no
canonical domain should be accepted as written. Five alias keys, among them
"Chocolateplatform.com" of ad system 239, belong to an ad system whose
canonical domain is empty, and the resolver, called with the exact key,
answers each with the unknown-exchange error. -/
theorem vaidateAdSystemCName_alias_rejected (uni : Char → Char) :
    ("Chocolateplatform.com", newAdSystemDomain "Chocolateplatform.com" 239) ∈ adSystemDomains ∧
    adSystems.lookup 239 = some (newAdSystem 239 "Vdopia" "") ∧
    (∀ key ∈ ["Brealtime", "Advertise.com", "SpotIM", "RTK.io", "Chocolateplatform.com"],
      ∃ e ∈ adSystemDomains, e.1 = key ∧
        ∃ a ∈ adSystems.lookup e.2.ID, a.CanonicalDomain = "") ∧
    ∀ key ∈ ["Brealtime", "Advertise.com", "SpotIM", "RTK.io", "Chocolateplatform.com"],
      vaidateAdSystemCName uni key
        = some ("Please verify that " ++ key ++ " is a known exchange domain") := by
  refine ⟨by decide, by decide, by decide!, ?_⟩
  intro key hkey
  have hascii : isASCII key = true := by
    revert key
    decide
  rw [vaidateAdSystemCName_of_isASCII uni key hascii]
  revert key
  decide!

/-- C3: for every alias entry of `adSystemDomains` whose ID resolves to an ad
system with a non-empty canonical domain that does not list the alias among its
comma-separated, trimmed members, the resolver called with the alias returns
the error "<alias> is not the preferred form of the exchange domain. Please
consider using <CanonicalDomain> as the canonical domain name". -/
theorem vaidateAdSystemCName_alias_nonCanonical (uni : Char → Char) (key : String)
    (d : adSystemDomain) (a : adSystem)
    (hd : (key, d) ∈ adSystemDomains)
    (ha : adSystems.lookup d.ID = some a)
    (hne : a.CanonicalDomain ≠ "")
    (hnot : key ∉ (Split a.CanonicalDomain ",").map TrimSpace) :
    vaidateAdSystemCName uni key =
      some (key ++ " is not the preferred form of the exchange domain. Please consider using "
        ++ a.CanonicalDomain ++ " as the canonical domain name") := by
  rw [vaidateAdSystemCName_of_isASCII uni key (adSystemDomains_isASCII _ hd)]
  exact adSystemDomains_nonCanonical (key, d) hd a ha hne hnot

theorem vaidateAdSystemCName_alias_nonCanonical_witness :
    ("rubicon.com", newAdSystemDomain "rubicon.com" 1) ∈ adSystemDomains ∧
    adSystems.lookup 1 = some (newAdSystem 1 "Rubicon Project" "rubiconproject.com") ∧
    vaidateAdSystemCName id "rubicon.com" =
      some ("rubicon.com is not the preferred form of the exchange domain. " ++
        "Please consider using rubiconproject.com as the canonical domain name") :=
  ⟨by decide, by decide,
    vaidateAdSystemCName_alias_nonCanonical id "rubicon.com" (newAdSystemDomain "rubicon.com" 1)
      (newAdSystem 1 "Rubicon Project" "rubiconproject.com")
      (by decide) (by decide) (by decide) (by decide)⟩

/-- C4: a string that is absent from the alias table and is not a member of
any ad system's canonical set gets the unknown-exchange error, never success
and never the not-preferred-form error. Absence and membership are those of
the registry's own lookups, which take the input lower-cased: no alias key and
no trimmed member of a comma-separated canonical list is the lower-cased
input. -/
theorem vaidateAdSystemCName_unknown (uni : Char → Char) (d : String)
    (hAlias : ∀ e ∈ adSystemDomains, e.1 ≠ ToLower uni d)
    (hCanon : ∀ e ∈ adSystems, ∀ m ∈ Split e.2.CanonicalDomain ",",
      TrimSpace m ≠ ToLower uni d) :
    vaidateAdSystemCName uni d
        = some ("Please verify that " ++ d ++ " is a known exchange domain") ∧
      vaidateAdSystemCName uni d ≠ none ∧
      ∀ c : String, vaidateAdSystemCName uni d ≠
        some (d ++ " is not the preferred form of the exchange domain. Please consider using "
          ++ c ++ " as the canonical domain name") := by
  have hres : vaidateAdSystemCName uni d
      = some ("Please verify that " ++ d ++ " is a known exchange domain") := by
    have hl : adSystemDomains.lookup (ToLower uni d) = none := by
      rw [List.lookup_eq_none_iff]
      intro p hp
      simpa using fun h => hAlias p hp h.symm
    have hs : scanAdSystems uni d adSystems = false := by
      rw [Bool.eq_false_iff]
      intro hscan
      obtain ⟨e, he, hc⟩ := (scanAdSystems_eq_true_iff uni d adSystems).mp hscan
      obtain ⟨m, hm, hmd⟩ := (compareCName_eq_true_iff uni e.2 d).mp hc
      exact hCanon e he m hm hmd
    unfold vaidateAdSystemCName
    rw [hl]
    simp [hs]
  refine ⟨hres, ?_, ?_⟩
  · rw [hres]
    exact Option.some_ne_none _
  · intro c hc
    rw [hres] at hc
    exact unknown_ne_nonCanonical d d c (Option.some.inj hc)

theorem vaidateAdSystemCName_unknown_witness :
    (∀ e ∈ adSystemDomains, e.1 ≠ ToLower id "Example.COM") ∧
    (∀ e ∈ adSystems, ∀ m ∈ Split e.2.CanonicalDomain ",",
      TrimSpace m ≠ ToLower id "Example.COM") ∧
    vaidateAdSystemCName id "Example.COM"
      = some "Please verify that Example.COM is a known exchange domain" :=
  ⟨example_com_no_alias, example_com_no_canonical,
    (vaidateAdSystemCName_unknown id "Example.COM" example_com_no_alias
      example_com_no_canonical).1⟩

/-- C5: the resolver is case-insensitive in its input. Two strings with the
same lower-cased form get the same kind of answer: both are accepted, or both
get the unknown-exchange error, or both get the not-preferred-form error
naming the same canonical domain. -/
theorem vaidateAdSystemCName_case_insensitive (uni : Char → Char) (d1 d2 : String)
    (h : ToLower uni d1 = ToLower uni d2) :
    (vaidateAdSystemCName uni d1 = none ∧ vaidateAdSystemCName uni d2 = none) ∨
    (vaidateAdSystemCName uni d1
        = some ("Please verify that " ++ d1 ++ " is a known exchange domain") ∧
      vaidateAdSystemCName uni d2
        = some ("Please verify that " ++ d2 ++ " is a known exchange domain")) ∨
    ∃ c : String,
      vaidateAdSystemCName uni d1 =
        some (d1 ++ " is not the preferred form of the exchange domain. Please consider using "
          ++ c ++ " as the canonical domain name") ∧
      vaidateAdSystemCName uni d2 =
        some (d2 ++ " is not the preferred form of the exchange domain. Please consider using "
          ++ c ++ " as the canonical domain name") := by
  unfold vaidateAdSystemCName
  rw [h, scanAdSystems_congr uni d1 d2 h]
  cases adSystemDomains.lookup (ToLower uni d2) with
  | none =>
    dsimp only
    cases scanAdSystems uni d2 adSystems with
    | true => exact Or.inl ⟨by simp, by simp⟩
    | false => exact Or.inr (Or.inl ⟨by simp, by simp⟩)
  | some e =>
    dsimp only
    cases adSystems.lookup e.ID with
    | none => exact Or.inr (Or.inl ⟨rfl, rfl⟩)
    | some a =>
      dsimp only
      rw [compareCName_congr uni a d1 d2 h]
      by_cases hl : len a.CanonicalDomain > 0
      · cases a.compareCName uni d2 with
        | true => exact Or.inl ⟨by simp, by simp⟩
        | false => exact Or.inr (Or.inr ⟨a.CanonicalDomain, by simp [hl], by simp [hl]⟩)
      · exact Or.inl ⟨by simp [hl], by simp [hl]⟩

theorem vaidateAdSystemCName_case_insensitive_witness :
    (ToLower id "RUBICONPROJECT.COM" = ToLower id "rubiconproject.com" ∧
      vaidateAdSystemCName id "RUBICONPROJECT.COM" = none ∧
      vaidateAdSystemCName id "rubiconproject.com" = none) ∧
    (ToLower id "RUBICON.COM" = ToLower id "rubicon.com" ∧
      ∃ c : String,
        vaidateAdSystemCName id "RUBICON.COM" =
          some ("RUBICON.COM" ++
            " is not the preferred form of the exchange domain. Please consider using "
            ++ c ++ " as the canonical domain name") ∧
        vaidateAdSystemCName id "rubicon.com" =
          some ("rubicon.com" ++
            " is not the preferred form of the exchange domain. Please consider using "
            ++ c ++ " as the canonical domain name")) := by
  refine ⟨⟨by decide, ?_⟩, ⟨by decide, ?_⟩⟩
  · rcases vaidateAdSystemCName_case_insensitive id "RUBICONPROJECT.COM" "rubiconproject.com"
      (by decide) with h | h | ⟨c, h⟩
    · exact h
    · exact absurd h.2 (by decide)
    · have h2 : vaidateAdSystemCName id "rubiconproject.com" = none := by decide
      rw [h2] at h
      exact absurd h.2 (Option.some_ne_none _).symm
  · rcases vaidateAdSystemCName_case_insensitive id "RUBICON.COM" "rubicon.com" (by decide)
      with h | h | h
    · exact absurd h.2 (by decide)
    · exact absurd h.2 (by decide)
    · exact h

/-- C6 (the code breaks it): every ID of an alias entry should be a key of
`adSystems`. The entry "mobileadtrading.com" carries the ID 245, and
`adSystems` has no entry with the key 245. -/
theorem adSystemDomains_dangling_ID :
    ("mobileadtrading.com", newAdSystemDomain "mobileadtrading.com" 245) ∈ adSystemDomains ∧
    adSystems.lookup 245 = none ∧
    ¬ ∀ e ∈ adSystemDomains, ∃ s ∈ adSystems, s.1 = e.2.ID := by
  refine ⟨by decide, by decide, ?_⟩
  intro hall
  obtain ⟨s, hs, hk⟩ := hall ("mobileadtrading.com", newAdSystemDomain "mobileadtrading.com" 245)
    (by decide)
  have hnone : adSystems.lookup 245 = none := by decide
  rw [List.lookup_eq_none_iff] at hnone
  have := hnone s hs
  simp only [newAdSystemDomain] at hk
  simp [hk] at this

/-- C7: when the lower-cased input is an alias key whose ID is not a key of
`adSystems`, the resolver returns the error text it returns for an unknown
domain, "Please verify that <domain> is a known exchange domain"; so it does
for "mobileadtrading.com", whose alias entry points to the missing ID 245. -/
theorem vaidateAdSystemCName_dangling (uni : Char → Char) :
    (∀ (d : String) (e : adSystemDomain),
      adSystemDomains.lookup (ToLower uni d) = some e → adSystems.lookup e.ID = none →
      vaidateAdSystemCName uni d
        = some ("Please verify that " ++ d ++ " is a known exchange domain")) ∧
    vaidateAdSystemCName uni "mobileadtrading.com"
      = some "Please verify that mobileadtrading.com is a known exchange domain" := by
  have gen : ∀ (d : String) (e : adSystemDomain),
      adSystemDomains.lookup (ToLower uni d) = some e → adSystems.lookup e.ID = none →
      vaidateAdSystemCName uni d
        = some ("Please verify that " ++ d ++ " is a known exchange domain") := by
    intro d e he hs
    unfold vaidateAdSystemCName
    rw [he]
    simp only [hs]
  refine ⟨gen, ?_⟩
  have hlow : ToLower uni "mobileadtrading.com" = "mobileadtrading.com" := by
    rw [ToLower_of_isASCII uni _ (by decide)]
    decide
  exact gen "mobileadtrading.com" (newAdSystemDomain "mobileadtrading.com" 245)
    (by rw [hlow]; decide) (by decide)

theorem vaidateAdSystemCName_dangling_witness :
    adSystemDomains.lookup (ToLower id "MobileAdTrading.com")
      = some (newAdSystemDomain "mobileadtrading.com" 245) ∧
    adSystems.lookup (newAdSystemDomain "mobileadtrading.com" 245).ID = none ∧
    vaidateAdSystemCName id "MobileAdTrading.com"
      = some "Please verify that MobileAdTrading.com is a known exchange domain" :=
  ⟨by decide, by decide,
    (vaidateAdSystemCName_dangling id).1 "MobileAdTrading.com"
      (newAdSystemDomain "mobileadtrading.com" 245) (by decide) (by decide)⟩

/-- C8 (the code breaks it): `compareCName` should hold exactly when some
trimmed member of the comma-separated canonical domain equals the input
ignoring letter case. For ad system 224 the only member is
"Liondigitalserving.com"; `compareCName` is false for that very string and
for its lower-case spelling, since only the input is lower-cased. -/
theorem compareCName_misses_member (uni : Char → Char) :
    adSystems.lookup 224
      = some (newAdSystem 224 "Liondigitalserving.com" "Liondigitalserving.com") ∧
    (Split "Liondigitalserving.com" ",").map TrimSpace = ["Liondigitalserving.com"] ∧
    (newAdSystem 224 "Liondigitalserving.com" "Liondigitalserving.com").compareCName uni
      "Liondigitalserving.com" = false ∧
    (newAdSystem 224 "Liondigitalserving.com" "Liondigitalserving.com").compareCName uni
      "liondigitalserving.com" = false := by
  refine ⟨by decide, by decide, ?_, ?_⟩
  · rw [compareCName_of_isASCII uni _ _ (by decide)]
    decide
  · rw [compareCName_of_isASCII uni _ _ (by decide)]
    decide

/-- C9, as stated, fails on the registry: ad systems 166 and 227 have different
IDs and both list "mediabong.com" as a member of their canonical domain. -/
theorem adSystems_canonical_not_disjoint :
    ¬ ∀ e1 ∈ adSystems, ∀ e2 ∈ adSystems, e1.1 ≠ e2.1 →
      ∀ m ∈ (Split e1.2.CanonicalDomain ",").map TrimSpace,
        m ∉ (Split e2.2.CanonicalDomain ",").map TrimSpace := by
  intro h
  exact h (166, newAdSystem 166 "Vuble" "mediabong.com") (by decide)
    (227, newAdSystem 227 "mediabong.com" "mediabong.com") (by decide) (by decide)
    "mediabong.com" (by decide) (by decide)

/-- C9, amended: two entries of `adSystems` with different IDs that both
declare a canonical domain share no trimmed, comma-separated member other than
"mediabong.com"; so `compareCName` can hold for both on the same input only
when the lower-cased input is "mediabong.com". -/
theorem adSystems_canonical_disjoint_apart (uni : Char → Char) (e1 e2 : Int × adSystem)
    (h1 : e1 ∈ adSystems) (h2 : e2 ∈ adSystems) (hid : e1.1 ≠ e2.1)
    (hne1 : e1.2.CanonicalDomain ≠ "") (hne2 : e2.2.CanonicalDomain ≠ "") :
    (∀ m ∈ (Split e1.2.CanonicalDomain ",").map TrimSpace,
      m ∈ (Split e2.2.CanonicalDomain ",").map TrimSpace → m = "mediabong.com") ∧
    ∀ d : String, e1.2.compareCName uni d = true → e2.2.compareCName uni d = true →
      ToLower uni d = "mediabong.com" := by
  have hshared := adSystems_shared_member e1 h1 hne1 e2 h2 hne2 hid
  refine ⟨hshared, ?_⟩
  intro d hc1 hc2
  obtain ⟨m1, hm1, ht1⟩ := (compareCName_eq_true_iff uni e1.2 d).mp hc1
  obtain ⟨m2, hm2, ht2⟩ := (compareCName_eq_true_iff uni e2.2 d).mp hc2
  exact hshared (ToLower uni d) (List.mem_map.mpr ⟨m1, hm1, ht1⟩)
    (List.mem_map.mpr ⟨m2, hm2, ht2⟩)

theorem adSystems_canonical_disjoint_apart_witness :
    (166, newAdSystem 166 "Vuble" "mediabong.com") ∈ adSystems ∧
    (227, newAdSystem 227 "mediabong.com" "mediabong.com") ∈ adSystems ∧
    (newAdSystem 166 "Vuble" "mediabong.com").compareCName id "MediaBong.com" = true ∧
    (newAdSystem 227 "mediabong.com" "mediabong.com").compareCName id "MediaBong.com" = true ∧
    ToLower id "MediaBong.com" = "mediabong.com" :=
  ⟨by decide, by decide, by decide, by decide,
    (adSystems_canonical_disjoint_apart id (166, newAdSystem 166 "Vuble" "mediabong.com")
      (227, newAdSystem 227 "mediabong.com" "mediabong.com") (by decide) (by decide)
      (by decide) (by decide) (by decide)).2 "MediaBong.com" (by decide) (by decide)⟩

/-- C10: `validateDomainName` returns false for every input that contains the
substring "://", whatever `url.Parse` would make of it. -/
theorem validateDomainName_scheme_rejected (urlParse : String → Except String URL)
    (domain : String) (h : ∃ p q : String, domain = p ++ "://" ++ q) :
    validateDomainName urlParse domain = false := by
  obtain ⟨p, q, rfl⟩ := h
  unfold validateDomainName
  rw [if_pos (Index_ne_neg_one p "://" q)]

theorem validateDomainName_scheme_rejected_witness :
    (∃ p q : String, "http://rubiconproject.com" = p ++ "://" ++ q) ∧
    validateDomainName
      (fun _ => Except.ok ⟨utf8 "http", [], utf8 "rubiconproject.com", [], [], []⟩)
      "http://rubiconproject.com" = false :=
  ⟨⟨"http", "rubiconproject.com", by decide⟩,
    validateDomainName_scheme_rejected _ _ ⟨"http", "rubiconproject.com", by decide⟩⟩

/-! ### The resolver, branch by branch -/

theorem vaidateAdSystemCNameIn_adSystems (uni : Char → Char) (d : String) :
    vaidateAdSystemCNameIn uni adSystems d = vaidateAdSystemCName uni d := rfl

theorem vaidateAdSystemCNameIn_of_alias (uni : Char → Char) (l1 l2 : List (Int × adSystem))
    (d : String) (e : adSystemDomain)
    (he : adSystemDomains.lookup (ToLower uni d) = some e) :
    vaidateAdSystemCNameIn uni l1 d = vaidateAdSystemCNameIn uni l2 d := by
  unfold vaidateAdSystemCNameIn
  rw [he]

theorem vaidateAdSystemCNameIn_perm (uni : Char → Char) (l1 l2 : List (Int × adSystem))
    (h : l1.Perm l2) (d : String) :
    vaidateAdSystemCNameIn uni l1 d = vaidateAdSystemCNameIn uni l2 d := by
  unfold vaidateAdSystemCNameIn
  rw [scanAdSystems_perm uni d l1 l2 h]

theorem vaidateAdSystemCName_of_no_alias (uni : Char → Char) (d : String)
    (hl : adSystemDomains.lookup (ToLower uni d) = none) :
    vaidateAdSystemCName uni d = none ↔ ∃ s ∈ adSystems, s.2.compareCName uni d = true := by
  unfold vaidateAdSystemCName
  rw [hl, ← scanAdSystems_eq_true_iff]
  cases scanAdSystems uni d adSystems <;> simp

theorem vaidateAdSystemCName_of_alias (uni : Char → Char) (d : String) (e : adSystemDomain)
    (hl : adSystemDomains.lookup (ToLower uni d) = some e) :
    vaidateAdSystemCName uni d = none ↔
      ∃ a, adSystems.lookup e.ID = some a ∧
        (a.CanonicalDomain = "" ∨ a.compareCName uni d = true) := by
  unfold vaidateAdSystemCName
  rw [hl]
  dsimp only
  cases adSystems.lookup e.ID with
  | none => simp
  | some a =>
    dsimp only
    by_cases hlen : len a.CanonicalDomain > 0
    · have hne : a.CanonicalDomain ≠ "" := (len_pos_iff _).mp hlen
      rcases hc : a.compareCName uni d with _ | _ <;> simp [hlen, hne, hc]
    · have he : a.CanonicalDomain = "" := by
        by_contra hne
        exact hlen ((len_pos_iff _).mpr hne)
      rw [if_neg hlen]
      simp [he]

/-! ### Byte slices and first occurrences -/

theorem len_cons (c : Char) (cs : List Char) :
    len ⟨c :: cs⟩ = len ⟨cs⟩ + c.utf8Size := by
  simp [len, String.utf8ByteSize, String.utf8ByteSize.go]

theorem takeBytes_cons (m : Nat) (hm : 0 < m) (c : Char) (cs : List Char) :
    takeBytes m (c :: cs) = c :: takeBytes (m - c.utf8Size) cs := by
  cases m with
  | zero => omega
  | succ n => rfl

theorem dropBytes_cons (m : Nat) (hm : 0 < m) (c : Char) (cs : List Char) :
    dropBytes m (c :: cs) = dropBytes (m - c.utf8Size) cs := by
  cases m with
  | zero => omega
  | succ n => rfl

theorem takeBytes_zero (l : List Char) : takeBytes 0 l = [] := by
  cases l <;> rfl

theorem dropBytes_zero (l : List Char) : dropBytes 0 l = l := by
  cases l <;> rfl

theorem takeBytes_len_append (p r : List Char) : takeBytes (len ⟨p⟩) (p ++ r) = p := by
  induction p with
  | nil => exact takeBytes_zero r
  | cons c cs ih =>
    have hc := Char.utf8Size_pos c
    rw [List.cons_append, len_cons, takeBytes_cons _ (by omega), Nat.add_sub_cancel, ih]

theorem dropBytes_len_append (p r : List Char) (n : Nat) :
    dropBytes (len ⟨p⟩ + n) (p ++ r) = dropBytes n r := by
  induction p with
  | nil =>
    have h0 : len ⟨[]⟩ = 0 := rfl
    rw [h0, Nat.zero_add, List.nil_append]
  | cons c cs ih =>
    have hc := Char.utf8Size_pos c
    rw [List.cons_append, len_cons, dropBytes_cons _ (by omega)]
    have he : len ⟨cs⟩ + c.utf8Size + n - c.utf8Size = len ⟨cs⟩ + n := by omega
    rw [he, ih]

theorem indexLoop_cons (substr : List Char) (off : Nat) (c : Char) (cs : List Char) :
    indexLoop substr off (c :: cs) =
      if substr.isPrefixOf (c :: cs) then (off : Int)
      else indexLoop substr (off + c.utf8Size) cs := rfl

theorem indexLoop_base (substr q : List Char) (off : Nat) :
    indexLoop substr off (substr ++ q) = (off : Int) := by
  cases hl : (substr ++ q) with
  | nil =>
    have hs : substr = [] := by
      cases substr with
      | nil => rfl
      | cons c cs => simp at hl
    simp only [indexLoop, hs, if_true]
  | cons c cs =>
    have hp : substr.isPrefixOf (c :: cs) = true := by
      rw [← hl, List.isPrefixOf_iff_prefix]
      simp
    simp only [indexLoop, hp, if_true]

/-- The first occurrence: when `substr` does not start inside `p`, the search in
`p ++ substr ++ q` stops right after `p`. -/
theorem indexLoop_first (substr q : List Char) :
    ∀ (p : List Char) (off : Nat),
      (∀ p1 p2, p = p1 ++ p2 → p2 ≠ [] → substr.isPrefixOf (p2 ++ substr ++ q) = false) →
      indexLoop substr off (p ++ substr ++ q) = ((off + len ⟨p⟩ : Nat) : Int) := by
  intro p
  induction p with
  | nil =>
    intro off _
    have h0 : len ⟨[]⟩ = 0 := rfl
    rw [List.nil_append, indexLoop_base, h0, Nat.add_zero]
  | cons c cs ih =>
    intro off h
    have hc : substr.isPrefixOf (c :: cs ++ substr ++ q) = false :=
      h [] (c :: cs) rfl (by simp)
    have hc' : substr.isPrefixOf (c :: (cs ++ substr ++ q)) = false := by
      simpa using hc
    rw [List.cons_append, List.cons_append, indexLoop_cons, hc', if_neg (by simp),
      ih (off + c.utf8Size) (fun p1 p2 hp hne => h (c :: p1) p2 (by rw [hp]; rfl) hne),
      len_cons]
    congr 1
    omega

theorem indexLoop_absent (c : Char) (rest : List Char) :
    ∀ (l : List Char) (off : Nat), c ∉ l → indexLoop (c :: rest) off l = -1 := by
  intro l
  induction l with
  | nil =>
    intro off _
    simp [indexLoop]
  | cons x xs ih =>
    intro off h
    have hx : c ≠ x := fun he => h (by rw [he]; exact List.mem_cons_self _ _)
    have hxs : c ∉ xs := fun hm => h (List.mem_cons_of_mem _ hm)
    have hp : (c :: rest).isPrefixOf (x :: xs) = false := by
      simp [List.isPrefixOf, hx]
    rw [indexLoop_cons, hp, if_neg (by simp)]
    exact ih _ hxs

theorem split_at_first (c : Char) :
    ∀ l : List Char, c ∈ l → ∃ a b, l = a ++ c :: b ∧ c ∉ a := by
  intro l
  induction l with
  | nil => intro h; cases h
  | cons x xs ih =>
    intro h
    by_cases hx : x = c
    · exact ⟨[], xs, by rw [hx]; rfl, by simp⟩
    · have hxs : c ∈ xs := by
        rcases List.mem_cons.mp h with h1 | h1
        · exact absurd h1.symm hx
        · exact h1
      obtain ⟨a, b, hab, hna⟩ := ih hxs
      refine ⟨x :: a, b, by rw [hab]; rfl, ?_⟩
      intro hm
      rcases List.mem_cons.mp hm with h1 | h1
      · exact hx h1.symm
      · exact hna h1

theorem Index_mk_first (P sub Q : List Char)
    (h : ∀ p1 p2, P = p1 ++ p2 → p2 ≠ [] → sub.isPrefixOf (p2 ++ sub ++ Q) = false) :
    Index ⟨P ++ (sub ++ Q)⟩ ⟨sub⟩ = ((len ⟨P⟩ : Nat) : Int) := by
  unfold Index
  show indexLoop sub 0 (P ++ (sub ++ Q)) = _
  rw [← List.append_assoc, indexLoop_first sub Q P 0 h, Nat.zero_add]

theorem Index_mk_rune_first (P Q : List Char) (c : Char) (h : c ∉ P) :
    Index ⟨P ++ c :: Q⟩ ⟨[c]⟩ = ((len ⟨P⟩ : Nat) : Int) := by
  refine Index_mk_first P [c] Q ?_
  intro p1 p2 hp hne
  cases p2 with
  | nil => exact absurd rfl hne
  | cons x xs =>
    have hx : x ∈ P := by rw [hp]; simp
    have hcx : c ≠ x := fun he => h (by rw [he]; exact hx)
    simp [List.isPrefixOf, hcx]

theorem Index_mk_absent (l : List Char) (c : Char) (rest : List Char) (h : c ∉ l) :
    Index ⟨l⟩ ⟨c :: rest⟩ = -1 :=
  indexLoop_absent c rest l 0 h

theorem sliceTo_mk (P R : List Char) : sliceTo ⟨P ++ R⟩ ((len ⟨P⟩ : Nat) : Int) = ⟨P⟩ := by
  unfold sliceTo
  rw [Int.toNat_ofNat]
  show String.mk (takeBytes (len ⟨P⟩) (P ++ R)) = _
  rw [takeBytes_len_append]

theorem sliceFrom_mk (P R : List Char) (n : Nat) :
    sliceFrom ⟨P ++ R⟩ (((len ⟨P⟩ : Nat) : Int) + (n : Int)) = ⟨dropBytes n R⟩ := by
  unfold sliceFrom
  have ht : (((len ⟨P⟩ : Nat) : Int) + (n : Int)).toNat = len ⟨P⟩ + n := by omega
  rw [ht]
  show String.mk (dropBytes (len ⟨P⟩ + n) (P ++ R)) = _
  rw [dropBytes_len_append]

/-- No occurrence of "://" starts inside `S` when `S` itself holds none. -/
theorem scheme_sep_not_inside (S R : List Char)
    (hS : ∀ a b, S ≠ a ++ (':' :: '/' :: '/' :: b)) :
    ∀ p1 p2, S = p1 ++ p2 → p2 ≠ [] →
      [':', '/', '/'].isPrefixOf (p2 ++ [':', '/', '/'] ++ R) = false := by
  intro p1 p2 hp hne
  rcases p2 with _ | ⟨a, _ | ⟨b, _ | ⟨c, rest⟩⟩⟩
  · exact absurd rfl hne
  · simp [List.isPrefixOf]
  · simp [List.isPrefixOf]
  · rw [Bool.eq_false_iff]
    intro hpre
    simp only [List.cons_append, List.isPrefixOf, Bool.and_eq_true, beq_iff_eq, and_true] at hpre
    obtain ⟨ha, hb, hc⟩ := hpre
    exact hS p1 rest (by rw [hp, ← ha, ← hb, ← hc])

theorem stripDomain_mk (S H P Q : List Char)
    (hS : ∀ a b, S ≠ a ++ (':' :: '/' :: '/' :: b))
    (hH1 : '/' ∉ H) (hH2 : ':' ∉ H) :
    stripDomain ⟨S ++ ([':', '/', '/'] ++ (H ++ ':' :: (P ++ '/' :: Q)))⟩ = ⟨H⟩ := by
  obtain ⟨a, b, hab, hna⟩ := split_at_first '/' (P ++ '/' :: Q) (by simp)
  have h1 : Index ⟨S ++ ([':', '/', '/'] ++ (H ++ ':' :: (P ++ '/' :: Q)))⟩ "://"
      = ((len ⟨S⟩ : Nat) : Int) :=
    Index_mk_first S [':', '/', '/'] _ (scheme_sep_not_inside S _ hS)
  have h2 : sliceFrom ⟨S ++ ([':', '/', '/'] ++ (H ++ ':' :: (P ++ '/' :: Q)))⟩
      (((len ⟨S⟩ : Nat) : Int) + 3) = ⟨(H ++ ':' :: a) ++ '/' :: b⟩ := by
    have h3 := sliceFrom_mk S ([':', '/', '/'] ++ (H ++ ':' :: (P ++ '/' :: Q))) 3
    rw [show ((3 : Nat) : Int) = 3 from rfl] at h3
    rw [h3, hab]
    have hd : dropBytes 3 ([':', '/', '/'] ++ (H ++ ':' :: (a ++ '/' :: b)))
        = H ++ ':' :: (a ++ '/' :: b) := by
      have e := dropBytes_len_append [':', '/', '/'] (H ++ ':' :: (a ++ '/' :: b)) 0
      have hl : len ⟨[':', '/', '/']⟩ + 0 = 3 := by decide
      rw [hl] at e
      rw [e, dropBytes_zero]
    rw [hd]
    simp
  have hX : '/' ∉ H ++ ':' :: a := by
    intro hm
    rcases List.mem_append.mp hm with h | h
    · exact hH1 h
    · rcases List.mem_cons.mp h with h | h
      · exact absurd h (by decide)
      · exact hna h
  have h4 : Index ⟨(H ++ ':' :: a) ++ '/' :: b⟩ "/" = ((len ⟨H ++ ':' :: a⟩ : Nat) : Int) :=
    Index_mk_rune_first _ _ '/' hX
  have h5 : Index ⟨H ++ ':' :: a⟩ ":" = ((len ⟨H⟩ : Nat) : Int) :=
    Index_mk_rune_first _ _ ':' hH2
  unfold stripDomain
  simp only [h1]
  rw [if_pos (show ((len ⟨S⟩ : Nat) : Int) ≠ -1 by omega), h2]
  simp only [h4]
  rw [if_pos (show ((len ⟨H ++ ':' :: a⟩ : Nat) : Int) ≠ -1 by omega), sliceTo_mk]
  simp only [h5]
  rw [if_pos (show ((len ⟨H⟩ : Nat) : Int) ≠ -1 by omega), sliceTo_mk]

theorem stripDomain_mk_bare (H : List Char) (hH1 : '/' ∉ H) (hH2 : ':' ∉ H) :
    stripDomain ⟨H⟩ = ⟨H⟩ := by
  have h1 : Index ⟨H⟩ "://" = -1 := Index_mk_absent H ':' ['/', '/'] hH2
  have h2 : Index ⟨H⟩ "/" = -1 := Index_mk_absent H '/' [] hH1
  have h3 : Index ⟨H⟩ ":" = -1 := Index_mk_absent H ':' [] hH2
  unfold stripDomain
  simp only [h1, ne_eq, not_true_eq_false, if_false, h2, h3]

theorem stripDomain_url (s h p q : String) (hs : ∀ a b : String, s ≠ a ++ "://" ++ b)
    (hh1 : '/' ∉ h.data) (hh2 : ':' ∉ h.data) :
    stripDomain (s ++ "://" ++ h ++ ":" ++ p ++ "/" ++ q) = h := by
  have hS : ∀ a b, s.data ≠ a ++ (':' :: '/' :: '/' :: b) := by
    intro a b hab
    apply hs ⟨a⟩ ⟨b⟩
    apply String.ext
    rw [hab]
    simp [String.data_append]
  have hform : s ++ "://" ++ h ++ ":" ++ p ++ "/" ++ q
      = ⟨s.data ++ ([':', '/', '/'] ++ (h.data ++ ':' :: (p.data ++ '/' :: q.data)))⟩ := by
    apply String.ext
    simp [String.data_append]
  rw [hform]
  exact stripDomain_mk s.data h.data p.data q.data hS hh1 hh2

theorem stripDomain_bare (h : String) (hh1 : '/' ∉ h.data) (hh2 : ':' ∉ h.data) :
    stripDomain h = h :=
  stripDomain_mk_bare h.data hh1 hh2

/-! ### Occurrences found by the substring search -/

theorem indexLoop_found (substr : List Char) :
    ∀ (l : List Char) (off : Nat), indexLoop substr off l ≠ -1 →
      ∃ p q, l = p ++ substr ++ q := by
  intro l
  induction l with
  | nil =>
    intro off h
    have hs : substr = [] := by
      by_contra hne
      exact h (by simp [indexLoop, hne])
    exact ⟨[], [], by simp [hs]⟩
  | cons c cs ih =>
    intro off h
    rw [indexLoop_cons] at h
    by_cases hp : substr.isPrefixOf (c :: cs) = true
    · obtain ⟨t, ht⟩ := List.isPrefixOf_iff_prefix.mp hp
      exact ⟨[], t, by simp [ht]⟩
    · rw [if_neg hp] at h
      obtain ⟨p, q, hpq⟩ := ih _ h
      exact ⟨c :: p, q, by simp [hpq]⟩

theorem Index_eq_neg_one_iff (s substr : String) :
    Index s substr = -1 ↔ ∀ p q : String, s ≠ p ++ substr ++ q := by
  constructor
  · intro h p q hpq
    rw [hpq] at h
    exact Index_ne_neg_one p substr q h
  · intro h
    by_contra hne
    obtain ⟨p, q, hpq⟩ := indexLoop_found substr.data s.data 0 hne
    apply h ⟨p⟩ ⟨q⟩
    apply String.ext
    simp [String.data_append, hpq]

/-! ### The host that the parser returns holds no '/' and no '?' -/

theorem unescape_nil (mode : encoding) : unescape mode [] = .ok [] := by
  rw [unescape]

theorem unescape_escape (mode : encoding) (h1 h2 : Nat) (rest : List Nat) :
    unescape mode (0x25 :: h1 :: h2 :: rest) =
      if ishex h1 && ishex h2 then
        if mode = .encodeHost ∧ unhex h1 < 8 ∧ ¬ (h1 = 0x32 ∧ h2 = 0x35) then
          .error "invalid URL escape"
        else if mode = .encodeZone ∧ ¬ (h1 = 0x32 ∧ h2 = 0x35) ∧
            unhex h1 * 16 + unhex h2 ≠ 0x20 ∧
            shouldEscape (unhex h1 * 16 + unhex h2) .encodeHost then
          .error "invalid URL escape"
        else
          match unescape mode rest with
          | .ok t => .ok ((unhex h1 * 16 + unhex h2) :: t)
          | .error e => .error e
      else .error "invalid URL escape" := by
  rw [unescape, if_pos rfl]

theorem unescape_escape_short (mode : encoding) (rest : List Nat) (h : rest.length < 2) :
    unescape mode (0x25 :: rest) = .error "invalid URL escape" := by
  rcases rest with _ | ⟨h1, _ | ⟨h2, r⟩⟩
  · rw [unescape, if_pos rfl]
    intro _ _ _ hh
    cases hh
  · rw [unescape, if_pos rfl]
    intro _ _ _ hh
    cases hh
  · simp only [List.length_cons] at h
    omega

theorem unescape_plain (mode : encoding) (c : Nat) (rest : List Nat) (hc : c ≠ 0x25) :
    unescape mode (c :: rest) =
      if (mode = .encodeHost ∨ mode = .encodeZone) ∧ c < 0x80 ∧
          shouldEscape c .encodeHost then
        .error "invalid character in host name"
      else
        match unescape mode rest with
        | .ok t => .ok ((if c = 0x2B ∧ mode = .encodeQueryComponent then 0x20 else c) :: t)
        | .error e => .error e := by
  conv_lhs => unfold unescape
  rw [if_neg hc]

theorem unescape_host_clean (mode : encoding)
    (hm : mode = .encodeHost ∨ mode = .encodeZone) :
    ∀ (n : Nat) (s t : List Nat), s.length ≤ n → unescape mode s = .ok t →
      ∀ b ∈ t, b ≠ 0x2F ∧ b ≠ 0x3F := by
  have hq : mode ≠ .encodeQueryComponent := by
    rcases hm with h | h <;> rw [h] <;> decide
  intro n
  induction n with
  | zero =>
    intro s t hl h
    have hs : s = [] := List.length_eq_zero.mp (Nat.le_zero.mp hl)
    rw [hs, unescape_nil] at h
    cases h
    intro b hb
    cases hb
  | succ n ih =>
    intro s t hl h
    cases s with
    | nil =>
      rw [unescape_nil] at h
      cases h
      intro b hb
      cases hb
    | cons c rest =>
      by_cases hc : c = 0x25
      · subst hc
        rcases rest with _ | ⟨h1, _ | ⟨h2, rest'⟩⟩
        · rw [unescape_escape_short mode [] (by simp)] at h
          cases h
        · rw [unescape_escape_short mode [h1] (by simp)] at h
          cases h
        · rw [unescape_escape] at h
          split at h
          · split at h
            · cases h
            · rename_i hhost
              split at h
              · cases h
              · rename_i hzone
                split at h
                · rename_i t' ht'
                  cases h
                  intro b hb
                  rcases List.mem_cons.mp hb with hb | hb
                  · rw [hb]
                    rcases hm with hmode | hmode
                    · have hh : ¬ (unhex h1 < 8 ∧ ¬ (h1 = 0x32 ∧ h2 = 0x35)) := by
                        intro hc
                        exact hhost ⟨hmode, hc⟩
                      by_cases h8 : unhex h1 < 8
                      · have h25 : h1 = 0x32 ∧ h2 = 0x35 := by
                          by_contra hne
                          exact hh ⟨h8, hne⟩
                        rw [h25.1, h25.2]
                        decide
                      · constructor <;> omega
                    · by_cases h25 : h1 = 0x32 ∧ h2 = 0x35
                      · rw [h25.1, h25.2]
                        decide
                      · by_cases h20 : unhex h1 * 16 + unhex h2 = 0x20
                        · rw [h20]
                          decide
                        · have hse : ¬ shouldEscape (unhex h1 * 16 + unhex h2) .encodeHost = true :=
                            fun hc => hzone ⟨hmode, h25, h20, hc⟩
                          constructor
                          · intro he
                            rw [he] at hse
                            exact hse (by decide)
                          · intro he
                            rw [he] at hse
                            exact hse (by decide)
                  · exact ih rest' t' (by simp at hl; omega) ht' b hb
                · cases h
          · cases h
      · rw [unescape_plain mode c rest hc] at h
        split at h
        · cases h
        · rename_i hnot
          split at h
          · rename_i t' ht'
            cases h
            intro b hb
            rcases List.mem_cons.mp hb with hb | hb
            · have hb' : b = c := by
                rw [hb]
                simp [hq]
              rw [hb']
              have hc : ¬ (c < 0x80 ∧ shouldEscape c .encodeHost = true) :=
                fun hc => hnot ⟨hm, hc⟩
              constructor
              · intro he
                rw [he] at hc
                exact hc (by decide)
              · intro he
                rw [he] at hc
                exact hc (by decide)
            · exact ih rest t' (by simp at hl; omega) ht' b hb
          · cases h

theorem parseHost_clean (host t : List Nat) (h : parseHost host = .ok t) :
    ∀ b ∈ t, b ≠ 0x2F ∧ b ≠ 0x3F := by
  have hH := fun s t => unescape_host_clean .encodeHost (Or.inl rfl) s.length s t (Nat.le_refl _)
  have hZ := fun s t => unescape_host_clean .encodeZone (Or.inr rfl) s.length s t (Nat.le_refl _)
  unfold parseHost at h
  split at h
  · split at h
    · cases h
    · split at h
      · cases h
      · split at h
        · split at h
          · cases h
          · rename_i host1 h1
            split at h
            · cases h
            · rename_i host2 h2
              split at h
              · cases h
              · rename_i host3 h3
                cases h
                intro b hb
                rcases List.mem_append.mp hb with hb | hb
                · rcases List.mem_append.mp hb with hb | hb
                  · exact hH _ _ h1 b hb
                  · exact hZ _ _ h2 b hb
                · exact hH _ _ h3 b hb
        · exact hH _ _ h
  · split at h
    · split at h
      · cases h
      · exact hH _ _ h
    · exact hH _ _ h

theorem parseAuthority_clean (authority t : List Nat) (h : parseAuthority authority = .ok t) :
    ∀ b ∈ t, b ≠ 0x2F ∧ b ≠ 0x3F := by
  unfold parseAuthority at h
  split at h
  · exact parseHost_clean _ _ h
  · split at h
    · cases h
    · rename_i host hhost
      have hc := parseHost_clean _ _ hhost
      dsimp only at h
      split at h
      · cases h
      · split at h
        · split at h
          · cases h
          · cases h
            exact hc
        · split at h
          · cases h
          · split at h
            · cases h
            · cases h
              exact hc

theorem parseRest_clean (scheme rest rawQuery : List Nat) (u : URL)
    (h : parseRest scheme rest rawQuery = .ok u) :
    ∀ b ∈ u.Host, b ≠ 0x2F ∧ b ≠ 0x3F := by
  unfold parseRest at h
  split at h
  · cases h
    intro b hb
    cases hb
  · split at h
    · cases h
    · split at h
      · split at h
        · cases h
        · rename_i host hhost
          split at h
          · cases h
          · cases h
            exact parseAuthority_clean _ _ hhost
      · split at h
        · cases h
        · cases h
          intro b hb
          cases hb

theorem parse_clean (rawURL : List Nat) (u : URL) (h : parse rawURL = .ok u) :
    ∀ b ∈ u.Host, b ≠ 0x2F ∧ b ≠ 0x3F := by
  unfold parse at h
  split at h
  · cases h
  · split at h
    · cases h
      intro b hb
      cases hb
    · split at h
      · cases h
      · split at h
        · exact parseRest_clean _ _ _ _ h
        · exact parseRest_clean _ _ _ _ h

theorem Parse_clean (rawURL : String) (u : URL) (h : Parse rawURL = .ok u) :
    ∀ b ∈ u.Host, b ≠ 0x2F ∧ b ≠ 0x3F := by
  unfold Parse at h
  split at h
  · cases h
  · rename_i url hurl
    have hc := parse_clean _ _ hurl
    split at h
    · cases h
      exact hc
    · split at h
      · cases h
      · cases h
        exact hc

theorem mem_utf8_of_ascii (c : Char) (hc : c.toNat < 0x80) (s : String) (h : c ∈ s.data) :
    c.toNat ∈ utf8 s := by
  unfold utf8
  rw [List.mem_flatMap]
  exact ⟨c, h, by simp [utf8Rune, hc]⟩

/-! ### Parsing "http://" followed by a plain authority -/

theorem utf8_append (a b : String) : utf8 (a ++ b) = utf8 a ++ utf8 b := by
  simp [utf8, String.data_append]

theorem utf8_of_ascii (s : String) (h : ∀ c ∈ s.data, c.toNat < 0x80) :
    utf8 s = s.data.map Char.toNat := by
  unfold utf8
  generalize s.data = l at h
  induction l with
  | nil => rfl
  | cons c cs ih =>
    have hc : c.toNat < 0x80 := h c (List.mem_cons_self _ _)
    rw [List.flatMap_cons, List.map_cons, ih (fun x hx => h x (List.mem_cons_of_mem _ hx))]
    simp [utf8Rune, hc]

theorem cutByte_absent (l : List Nat) (sep : Nat) (h : sep ∉ l) : cutByte l sep = (l, []) := by
  have ht : l.takeWhile (fun b => b != sep) = l := by
    rw [List.takeWhile_eq_self_iff]
    intro b hb
    simp only [bne_iff_ne, ne_eq]
    intro he
    exact h (he ▸ hb)
  have hd : l.dropWhile (fun b => b != sep) = [] := by
    rw [List.dropWhile_eq_nil_iff]
    intro b hb
    simp only [bne_iff_ne, ne_eq]
    intro he
    exact h (he ▸ hb)
  unfold cutByte
  rw [ht, hd]
  rfl

theorem lastIndexByte_absent (sep : Nat) :
    ∀ l : List Nat, sep ∉ l → lastIndexByte l sep = none := by
  intro l
  induction l with
  | nil => intro _; rfl
  | cons b rest ih =>
    intro h
    have hb : b ≠ sep := fun he => h (he ▸ List.mem_cons_self _ _)
    rw [lastIndexByte, ih (fun hm => h (List.mem_cons_of_mem _ hm))]
    simp [hb]

theorem lastIndexByte_append (sep : Nat) (P : List Nat) (hP : sep ∉ P) :
    ∀ H : List Nat, lastIndexByte (H ++ sep :: P) sep = some H.length := by
  intro H
  induction H with
  | nil =>
    rw [List.nil_append, lastIndexByte, lastIndexByte_absent sep P hP]
    simp
  | cons x xs ih =>
    rw [List.cons_append, lastIndexByte, ih]
    rfl

theorem shouldEscape_plain (b : Nat)
    (h : isAlnum b = true ∨ b = 0x2D ∨ b = 0x2E ∨ b = 0x3A) :
    shouldEscape b .encodeHost = false := by
  rcases h with h | h | h | h
  · simp [shouldEscape, h]
  · rw [h]; decide
  · rw [h]; decide
  · rw [h]; decide

theorem plain_ne (b : Nat) (h : isAlnum b = true ∨ b = 0x2D ∨ b = 0x2E ∨ b = 0x3A)
    (x : Nat) (hx : isAlnum x = false) (h1 : x ≠ 0x2D) (h2 : x ≠ 0x2E) (h3 : x ≠ 0x3A) :
    b ≠ x := by
  intro he
  rw [he] at h
  rcases h with h | h | h | h
  · rw [hx] at h
    cases h
  · exact h1 h
  · exact h2 h
  · exact h3 h

theorem unescape_host_plain :
    ∀ A : List Nat, (∀ b ∈ A, isAlnum b = true ∨ b = 0x2D ∨ b = 0x2E ∨ b = 0x3A) →
      unescape .encodeHost A = .ok A := by
  intro A
  induction A with
  | nil => intro _; exact unescape_nil _
  | cons b rest ih =>
    intro h
    have hb := h b (List.mem_cons_self _ _)
    have hne : b ≠ 0x25 := plain_ne b hb 0x25 (by decide) (by decide) (by decide) (by decide)
    rw [unescape_plain _ b rest hne, ih (fun x hx => h x (List.mem_cons_of_mem _ hx)),
      shouldEscape_plain b hb]
    simp

theorem getScheme_http (A : List Nat) :
    getScheme (0x68 :: 0x74 :: 0x74 :: 0x70 :: 0x3A :: 0x2F :: 0x2F :: A)
      = .ok ([0x68, 0x74, 0x74, 0x70], 0x2F :: 0x2F :: A) := by
  simp [getScheme, getSchemeLoop]

theorem parseHost_plain (A : List Nat)
    (h : ∀ b ∈ A, isAlnum b = true ∨ b = 0x2D ∨ b = 0x2E ∨ b = 0x3A)
    (hport : ∀ i, lastIndexByte A 0x3A = some i → validOptionalPort (A.drop i) = true) :
    parseHost A = .ok A := by
  have hhead : A.head? ≠ some 0x5B := by
    intro hh
    have hm : 0x5B ∈ A := List.mem_of_mem_head? hh
    exact plain_ne _ (h _ hm) 0x5B (by decide) (by decide) (by decide) (by decide) rfl
  unfold parseHost
  rw [if_neg hhead]
  cases hl : lastIndexByte A 0x3A with
  | none => exact unescape_host_plain A h
  | some i =>
    simp only [hport i hl, Bool.not_true, Bool.false_eq_true, if_false]
    exact unescape_host_plain A h

theorem parseAuthority_plain (A : List Nat)
    (h : ∀ b ∈ A, isAlnum b = true ∨ b = 0x2D ∨ b = 0x2E ∨ b = 0x3A)
    (hport : ∀ i, lastIndexByte A 0x3A = some i → validOptionalPort (A.drop i) = true) :
    parseAuthority A = .ok A := by
  have hat : 0x40 ∉ A := fun hm =>
    plain_ne _ (h _ hm) 0x40 (by decide) (by decide) (by decide) (by decide) rfl
  unfold parseAuthority
  rw [lastIndexByte_absent 0x40 A hat]
  exact parseHost_plain A h hport

theorem parse_http_plain (A : List Nat)
    (h : ∀ b ∈ A, isAlnum b = true ∨ b = 0x2D ∨ b = 0x2E ∨ b = 0x3A)
    (hport : ∀ i, lastIndexByte A 0x3A = some i → validOptionalPort (A.drop i) = true) :
    parse (0x68 :: 0x74 :: 0x74 :: 0x70 :: 0x3A :: 0x2F :: 0x2F :: A)
      = .ok ⟨[0x68, 0x74, 0x74, 0x70], [], A, [], [], []⟩ := by
  have hno : ∀ x, isAlnum x = false → x ≠ 0x2D → x ≠ 0x2E → x ≠ 0x3A → x ∉ A :=
    fun x hx h1 h2 h3 hm => plain_ne _ (h _ hm) x hx h1 h2 h3 rfl
  have hctl : stringContainsCTLByte (0x68 :: 0x74 :: 0x74 :: 0x70 :: 0x3A :: 0x2F :: 0x2F :: A)
      = false := by
    rw [Bool.eq_false_iff]
    intro hc
    unfold stringContainsCTLByte at hc
    rw [List.any_eq_true] at hc
    obtain ⟨b, hb, hlt⟩ := hc
    simp only [List.mem_cons] at hb
    rcases hb with hb | hb | hb | hb | hb | hb | hb | hb
    all_goals try (rw [hb] at hlt; revert hlt; decide)
    have hp := h b hb
    simp only [Bool.or_eq_true, decide_eq_true_eq, beq_iff_eq] at hlt
    rcases hp with hp | hp | hp | hp
    · simp only [isAlnum, Bool.or_eq_true, Bool.and_eq_true, decide_eq_true_eq] at hp
      omega
    · omega
    · omega
    · omega
  have hq : 0x3F ∉ (0x2F :: 0x2F :: A) := by
    intro hm
    simp only [List.mem_cons] at hm
    rcases hm with hm | hm | hm
    · exact absurd hm (by decide)
    · exact absurd hm (by decide)
    · exact hno 0x3F (by decide) (by decide) (by decide) (by decide) hm
  have hlast : ¬ ((0x2F :: 0x2F :: A).getLast? = some 0x3F ∧ (0x2F :: 0x2F :: A).count 0x3F = 1) :=
    fun hc => hq (List.mem_of_getLast?_eq_some hc.1)
  have hslash : 0x2F ∉ A := hno 0x2F (by decide) (by decide) (by decide) (by decide)
  have htake : List.takeWhile (fun b => b != 0x2F) A = A := by
    rw [List.takeWhile_eq_self_iff]
    intro b hb
    simp only [bne_iff_ne, ne_eq]
    intro he
    exact hslash (he ▸ hb)
  have hdrop : List.dropWhile (fun b => b != 0x2F) A = [] := by
    rw [List.dropWhile_eq_nil_iff]
    intro b hb
    simp only [bne_iff_ne, ne_eq]
    intro he
    exact hslash (he ▸ hb)
  unfold parse
  rw [hctl, if_neg (by simp), if_neg (by simp), getScheme_http]
  simp only [hlast, if_false, cutByte_absent _ _ hq]
  unfold parseRest
  simp [lowerByte, htake, hdrop, parseAuthority_plain A h hport, unescape_nil]

theorem Parse_http_plain (d : String)
    (h : ∀ b ∈ utf8 d, isAlnum b = true ∨ b = 0x2D ∨ b = 0x2E ∨ b = 0x3A)
    (hport : ∀ i, lastIndexByte (utf8 d) 0x3A = some i →
      validOptionalPort ((utf8 d).drop i) = true) :
    Parse ("http://" ++ d) = .ok ⟨[0x68, 0x74, 0x74, 0x70], [], utf8 d, [], [], []⟩ := by
  have hu : utf8 ("http://" ++ d)
      = 0x68 :: 0x74 :: 0x74 :: 0x70 :: 0x3A :: 0x2F :: 0x2F :: utf8 d := by
    rw [utf8_append]
    have hp : utf8 "http://" = [0x68, 0x74, 0x74, 0x70, 0x3A, 0x2F, 0x2F] := by decide
    rw [hp]
    rfl
  have hhash : 0x23 ∉ utf8 ("http://" ++ d) := by
    rw [hu]
    intro hm
    simp only [List.mem_cons] at hm
    rcases hm with hm | hm | hm | hm | hm | hm | hm | hm
    all_goals try (exact absurd hm (by decide))
    exact plain_ne _ (h _ hm) 0x23 (by decide) (by decide) (by decide) (by decide) rfl
  unfold Parse
  rw [cutByte_absent _ _ hhash, hu, parse_http_plain (utf8 d) h hport]
  simp

theorem validateDomainName_plain (d : String)
    (h : ∀ b ∈ utf8 d, isAlnum b = true ∨ b = 0x2D ∨ b = 0x2E ∨ b = 0x3A)
    (hslash : '/' ∉ d.data)
    (hport : ∀ i, lastIndexByte (utf8 d) 0x3A = some i →
      validOptionalPort ((utf8 d).drop i) = true) :
    validateDomainName Parse d = true := by
  have hi : Index d "://" = -1 := by
    rw [Index_eq_neg_one_iff]
    intro p q hpq
    apply hslash
    rw [hpq]
    simp [String.data_append, show "://".data = [':', '/', '/'] from rfl]
  unfold validateDomainName
  rw [if_neg (by simp [hi]), Parse_http_plain d h hport]
  simp

theorem isAlnum_lt (b : Nat) (h : isAlnum b = true) : b < 0x80 := by
  simp only [isAlnum, Bool.or_eq_true, Bool.and_eq_true, decide_eq_true_eq] at h
  omega

theorem hostport_bytes (h p : String) (hh : ∀ c ∈ h.data, isHostRune c = true)
    (hp : ∀ c ∈ p.data, isDigitRune c = true) :
    utf8 (h ++ ":" ++ p) = h.data.map Char.toNat ++ 0x3A :: p.data.map Char.toNat := by
  have hha : ∀ c ∈ h.data, c.toNat < 0x80 := by
    intro c hc
    have := hh c hc
    simp only [isHostRune, Bool.or_eq_true, beq_iff_eq] at this
    rcases this with (this | this) | this
    · exact isAlnum_lt _ this
    · rw [this]; decide
    · rw [this]; decide
  have hpa : ∀ c ∈ p.data, c.toNat < 0x80 := by
    intro c hc
    have := hp c hc
    simp only [isDigitRune, Bool.and_eq_true, decide_eq_true_eq] at this
    omega
  rw [utf8_append, utf8_append, utf8_of_ascii h hha, utf8_of_ascii p hpa]
  have hc : utf8 ":" = [0x3A] := by decide
  rw [hc]
  simp

theorem validateDomainName_hostport (h p : String) (hh : ∀ c ∈ h.data, isHostRune c = true)
    (hp : ∀ c ∈ p.data, isDigitRune c = true) :
    validateDomainName Parse (h ++ ":" ++ p) = true := by
  have hb := hostport_bytes h p hh hp
  have hH : ∀ b ∈ h.data.map Char.toNat, isAlnum b = true ∨ b = 0x2D ∨ b = 0x2E := by
    intro b hb
    obtain ⟨c, hc, rfl⟩ := List.mem_map.mp hb
    have := hh c hc
    simp only [isHostRune, Bool.or_eq_true, beq_iff_eq] at this
    rcases this with (this | this) | this
    · exact Or.inl this
    · rw [this]; exact Or.inr (Or.inl (by decide))
    · rw [this]; exact Or.inr (Or.inr (by decide))
  have hP : ∀ b ∈ p.data.map Char.toNat, 0x30 ≤ b ∧ b ≤ 0x39 := by
    intro b hb
    obtain ⟨c, hc, rfl⟩ := List.mem_map.mp hb
    have := hp c hc
    simpa only [isDigitRune, Bool.and_eq_true, decide_eq_true_eq] using this
  have hcolon : 0x3A ∉ p.data.map Char.toNat := fun hm => by
    have := hP _ hm
    omega
  apply validateDomainName_plain
  · rw [hb]
    intro b hm
    rcases List.mem_append.mp hm with hm | hm
    · rcases hH b hm with h1 | h1 | h1
      · exact Or.inl h1
      · exact Or.inr (Or.inl h1)
      · exact Or.inr (Or.inr (Or.inl h1))
    · rcases List.mem_cons.mp hm with hm | hm
      · exact Or.inr (Or.inr (Or.inr hm))
      · have := hP b hm
        left
        simp only [isAlnum, Bool.or_eq_true, Bool.and_eq_true, decide_eq_true_eq]
        omega
  · intro hm
    simp only [String.data_append, List.mem_append] at hm
    rcases hm with (hm | hm) | hm
    · have := hh _ hm
      revert this
      decide
    · revert hm
      decide
    · have := hp _ hm
      revert this
      decide
  · intro i hi
    rw [hb] at hi ⊢
    rw [lastIndexByte_append 0x3A _ hcolon] at hi
    cases hi
    have hl : (h.data.map Char.toNat).length = (h.data.map Char.toNat).length := rfl
    rw [List.drop_left' hl]
    simp only [validOptionalPort, beq_self_eq_true, Bool.true_and, List.all_eq_true,
      Bool.and_eq_true, decide_eq_true_eq]
    exact hP

/-! ## The claims, continued -/

/-- C11: `validateDomainName` is true exactly when the input holds no "://",
parsing "http://" followed by the input succeeds, and the host of the parsed
URL is the input, byte for byte; with Go's `url.Parse` it is true for the bare
host name "rubiconproject.com". -/
theorem validateDomainName_eq_true_iff (urlParse : String → Except String URL) (d : String) :
    (validateDomainName urlParse d = true ↔
      (∀ p q : String, d ≠ p ++ "://" ++ q) ∧
        ∃ u, urlParse ("http://" ++ d) = .ok u ∧ u.Host = utf8 d) ∧
    validateDomainName Parse "rubiconproject.com" = true := by
  refine ⟨?_, by decide⟩
  unfold validateDomainName
  by_cases hi : Index d "://" = -1
  · have hno := (Index_eq_neg_one_iff d "://").mp hi
    rw [if_neg (by simp [hi])]
    cases hu : urlParse ("http://" ++ d) with
    | error e => simp [hno]
    | ok u => simp [hno]
  · have hsome : ¬ ∀ p q : String, d ≠ p ++ "://" ++ q :=
      fun h => hi ((Index_eq_neg_one_iff d "://").mpr h)
    rw [if_pos hi]
    simp only [Bool.false_eq_true, false_iff, not_and]
    intro h
    exact absurd h hsome

/-- C12, as stated, fails: "rubiconproject.com:8080" is accepted, since the
host that `url.Parse` returns keeps the port. -/
theorem validateDomainName_port_accepted :
    validateDomainName Parse "rubiconproject.com:8080" = true ∧
    (Parse "http://rubiconproject.com:8080").map (fun u => u.Host)
      = .ok (utf8 "rubiconproject.com:8080") := by
  decide

/-- C12, amended: for an input of the form host:port, with a host of ASCII
letters, digits, '-' and '.' and a port of decimal digits,
`validateDomainName` returns true: the host that `url.Parse` returns is "host
or host:port", equal to the input. -/
theorem validateDomainName_hostport_accepted (h p : String)
    (hh : ∀ c ∈ h.data, isHostRune c = true) (hp : ∀ c ∈ p.data, isDigitRune c = true) :
    validateDomainName Parse (h ++ ":" ++ p) = true ∧
    (Parse ("http://" ++ (h ++ ":" ++ p))).map (fun u => u.Host)
      = .ok (utf8 (h ++ ":" ++ p)) := by
  have hv := validateDomainName_hostport h p hh hp
  refine ⟨hv, ?_⟩
  unfold validateDomainName at hv
  split at hv
  · cases hv
  · split at hv
    · cases hv
    · rename_i u hu
      rw [hu]
      simp only [Except.map]
      rw [beq_iff_eq] at hv
      rw [hv]

theorem validateDomainName_hostport_accepted_witness :
    (∀ c ∈ "ads.example-exchange.com".data, isHostRune c = true) ∧
    (∀ c ∈ "443".data, isDigitRune c = true) ∧
    validateDomainName Parse ("ads.example-exchange.com" ++ ":" ++ "443") = true :=
  ⟨by decide, by decide,
    (validateDomainName_hostport_accepted "ads.example-exchange.com" "443"
      (by decide) (by decide)).1⟩

/-- C13: for every input that holds the character '/' or '?', and so embeds a
path or a query string, `validateDomainName` returns false. -/
theorem validateDomainName_path_rejected (domain : String)
    (h : '/' ∈ domain.data ∨ '?' ∈ domain.data) :
    validateDomainName Parse domain = false := by
  unfold validateDomainName
  split
  · rfl
  · split
    · rfl
    · rename_i u hu
      have hc := Parse_clean _ u hu
      rw [beq_eq_false_iff_ne]
      intro heq
      rcases h with h | h
      · have hm := mem_utf8_of_ascii '/' (by decide) domain h
        rw [← heq] at hm
        exact (hc _ hm).1 rfl
      · have hm := mem_utf8_of_ascii '?' (by decide) domain h
        rw [← heq] at hm
        exact (hc _ hm).2 rfl

theorem validateDomainName_path_rejected_witness :
    '/' ∈ "rubiconproject.com/path".data ∧
    validateDomainName Parse "rubiconproject.com/path" = false ∧
    '?' ∈ "rubiconproject.com?a=b".data ∧
    validateDomainName Parse "rubiconproject.com?a=b" = false :=
  ⟨by decide, validateDomainName_path_rejected "rubiconproject.com/path" (Or.inl (by decide)),
    by decide, validateDomainName_path_rejected "rubiconproject.com?a=b" (Or.inr (by decide))⟩

/-- C14: `rootDomain` strips scheme, port and path before the eTLD+1 is
computed. For a scheme `s` without "://", a host `h` without "/" and ":", and
any `p` and `q`, `rootDomain (s ++ "://" ++ h ++ ":" ++ p ++ "/" ++ q)` is
`rootDomain h`, string and error alike; and when the public suffix of
"fastlane.rubiconproject.com" is "com", `rootDomain` of
"https://fastlane.rubiconproject.com/x" is "rubiconproject.com" with a nil
error. -/
theorem rootDomain_strips {β : Type} (EffectiveTLDPlusOne' : String → Except String String)
    (PublicSuffix : String → String × β) :
    (∀ s h p q : String, (∀ a b : String, s ≠ a ++ "://" ++ b) →
      '/' ∉ h.data → ':' ∉ h.data →
      rootDomain EffectiveTLDPlusOne' PublicSuffix (s ++ "://" ++ h ++ ":" ++ p ++ "/" ++ q)
        = rootDomain EffectiveTLDPlusOne' PublicSuffix h) ∧
    ∀ ps : String → String × Bool, (ps "fastlane.rubiconproject.com").1 = "com" →
      rootDomain (EffectiveTLDPlusOne ps) ps "https://fastlane.rubiconproject.com/x"
        = ("rubiconproject.com", none) := by
  constructor
  · intro s h p q hs hh1 hh2
    unfold rootDomain
    rw [stripDomain_url s h p q hs hh1 hh2, stripDomain_bare h hh1 hh2]
  · intro ps hps
    have hstrip : stripDomain "https://fastlane.rubiconproject.com/x"
        = "fastlane.rubiconproject.com" := by decide
    have hetld : EffectiveTLDPlusOne ps "fastlane.rubiconproject.com"
        = .ok "rubiconproject.com" := by
      unfold EffectiveTLDPlusOne
      rw [hps]
      decide
    unfold rootDomain
    rw [hstrip, hetld]

theorem rootDomain_strips_witness :
    (∀ a b : String, "https" ≠ a ++ "://" ++ b) ∧
    rootDomain (EffectiveTLDPlusOne (fun _ => ("com", true))) (fun _ => ("com", true))
        ("https" ++ "://" ++ "fastlane.rubiconproject.com" ++ ":" ++ "8080" ++ "/" ++ "x/y")
      = rootDomain (EffectiveTLDPlusOne (fun _ => ("com", true))) (fun _ => ("com", true))
        "fastlane.rubiconproject.com" ∧
    rootDomain (EffectiveTLDPlusOne (fun _ => ("com", true))) (fun _ => ("com", true))
        "https://fastlane.rubiconproject.com/x" = ("rubiconproject.com", none) := by
  have hs : ∀ a b : String, "https" ≠ a ++ "://" ++ b := by
    intro a b hab
    have hd := congrArg String.data hab
    simp only [String.data_append] at hd
    have hm : '/' ∈ ['h', 't', 't', 'p', 's'] := by
      rw [hd]
      simp
    exact absurd hm (by decide)
  exact ⟨hs,
    (rootDomain_strips (EffectiveTLDPlusOne (fun _ => ("com", true))) (fun _ => ("com", true))).1
      "https" "fastlane.rubiconproject.com" "8080" "x/y" hs (by decide) (by decide),
    (rootDomain_strips (EffectiveTLDPlusOne (fun _ => ("com", true))) (fun _ => ("com", true))).2
      (fun _ => ("com", true)) rfl⟩

/-- C15: whenever the eTLD+1 computation fails on the stripped input,
`rootDomain` returns the public suffix of the stripped input together with a
nil error; the second result of the public-suffix lookup is dropped, whatever
it holds. -/
theorem rootDomain_fallback {β : Type} (EffectiveTLDPlusOne' : String → Except String String)
    (PublicSuffix : String → String × β) (rawurl : String) (err : String)
    (h : EffectiveTLDPlusOne' (stripDomain rawurl) = .error err) :
    rootDomain EffectiveTLDPlusOne' PublicSuffix rawurl
      = ((PublicSuffix (stripDomain rawurl)).1, none) := by
  unfold rootDomain
  rw [h]

theorem rootDomain_fallback_witness :
    EffectiveTLDPlusOne (fun _ => ("co.uk", false)) (stripDomain "http://co.uk:80/x")
      = .error "publicsuffix: cannot derive eTLD+1 for domain co.uk" ∧
    rootDomain (EffectiveTLDPlusOne (fun _ => ("co.uk", false))) (fun _ => ("co.uk", false))
      "http://co.uk:80/x" = ("co.uk", none) :=
  ⟨by decide,
    rootDomain_fallback (EffectiveTLDPlusOne (fun _ => ("co.uk", false)))
      (fun _ => ("co.uk", false)) "http://co.uk:80/x"
      "publicsuffix: cannot derive eTLD+1 for domain co.uk" (by decide)⟩

/-- C16: the resolver is deterministic. Whatever the order in which the
fallback loop meets the entries of `adSystems`, the result, success or the
exact error, is the one of the source order. -/
theorem vaidateAdSystemCName_order_independent (uni : Char → Char)
    (order : List (Int × adSystem)) (h : order.Perm adSystems) (d : String) :
    vaidateAdSystemCNameIn uni order d = vaidateAdSystemCName uni d := by
  rw [← vaidateAdSystemCNameIn_adSystems]
  exact vaidateAdSystemCNameIn_perm uni order adSystems h d

theorem vaidateAdSystemCName_order_independent_witness :
    adSystems.reverse.Perm adSystems ∧
    vaidateAdSystemCNameIn id adSystems.reverse "btrll.com"
      = vaidateAdSystemCName id "btrll.com" :=
  ⟨List.reverse_perm adSystems,
    vaidateAdSystemCName_order_independent id adSystems.reverse (List.reverse_perm adSystems)
      "btrll.com"⟩

/-- C18: the reference definition of the resolver. It returns nil exactly when
either the lower-cased input is an alias key whose ID is a key of `adSystems`
and that ad system has an empty canonical domain or `compareCName` holds for
it, or the lower-cased input is no alias key and `compareCName` holds for some
entry of `adSystems`. When an alias is found the fallback loop has no part in
the result: any two lists of entries to scan give the same answer. -/
theorem vaidateAdSystemCName_eq_none_iff (uni : Char → Char) (d : String) :
    (vaidateAdSystemCName uni d = none ↔
      (∃ e, adSystemDomains.lookup (ToLower uni d) = some e ∧
        ∃ a, adSystems.lookup e.ID = some a ∧
          (a.CanonicalDomain = "" ∨ a.compareCName uni d = true)) ∨
      (adSystemDomains.lookup (ToLower uni d) = none ∧
        ∃ s ∈ adSystems, s.2.compareCName uni d = true)) ∧
    (∀ e, adSystemDomains.lookup (ToLower uni d) = some e →
      ∀ order1 order2 : List (Int × adSystem),
        vaidateAdSystemCNameIn uni order1 d = vaidateAdSystemCNameIn uni order2 d) := by
  refine ⟨?_, fun e he order1 order2 => vaidateAdSystemCNameIn_of_alias uni order1 order2 d e he⟩
  cases hl : adSystemDomains.lookup (ToLower uni d) with
  | none =>
    rw [vaidateAdSystemCName_of_no_alias uni d hl]
    simp
  | some e =>
    rw [vaidateAdSystemCName_of_alias uni d e hl]
    simp

/-- C19: when the lower-cased input is an alias key whose ID is a key of
`adSystems` and that ad system's canonical domain is the empty string, the
resolver returns nil. -/
theorem vaidateAdSystemCName_no_canonical (uni : Char → Char) (d : String)
    (e : adSystemDomain) (a : adSystem)
    (he : adSystemDomains.lookup (ToLower uni d) = some e)
    (ha : adSystems.lookup e.ID = some a) (hc : a.CanonicalDomain = "") :
    vaidateAdSystemCName uni d = none :=
  (vaidateAdSystemCName_of_alias uni d e he).mpr ⟨a, ha, Or.inl hc⟩

theorem vaidateAdSystemCName_no_canonical_witness :
    adSystemDomains.lookup (ToLower id "33Across.COM")
      = some (newAdSystemDomain "33across.com" 2) ∧
    adSystems.lookup (newAdSystemDomain "33across.com" 2).ID
      = some (newAdSystem 2 "33Across" "") ∧
    vaidateAdSystemCName id "33Across.COM" = none :=
  ⟨by decide, by decide,
    vaidateAdSystemCName_no_canonical id "33Across.COM" (newAdSystemDomain "33across.com" 2)
      (newAdSystem 2 "33Across" "") (by decide) (by decide) rfl⟩

/-- C20 (the code breaks it): an input whose lower-cased form is no alias key
and that some ad system's canonical set contains should be accepted by the
fallback scan. "btrll.com", the canonical domain of ad system 29, is; but
"Liondigitalserving.com", no alias key once lower-cased and the one member of
the canonical set of ad system 224, gets the unknown-exchange error. -/
theorem vaidateAdSystemCName_scan_rejects_member (uni : Char → Char) :
    (adSystemDomains.lookup (ToLower uni "btrll.com") = none ∧
      adSystems.lookup 29 = some (newAdSystem 29 "BrightRoll from Yahoo!" "btrll.com") ∧
      vaidateAdSystemCName uni "btrll.com" = none) ∧
    (adSystemDomains.lookup (ToLower uni "Liondigitalserving.com") = none ∧
      adSystems.lookup 224
        = some (newAdSystem 224 "Liondigitalserving.com" "Liondigitalserving.com") ∧
      "Liondigitalserving.com" ∈ (Split "Liondigitalserving.com" ",").map TrimSpace ∧
      vaidateAdSystemCName uni "Liondigitalserving.com"
        = some "Please verify that Liondigitalserving.com is a known exchange domain") := by
  refine ⟨⟨?_, by decide, ?_⟩, ⟨?_, by decide, by decide, ?_⟩⟩
  · rw [ToLower_of_isASCII uni _ (by decide)]
    decide!
  · rw [vaidateAdSystemCName_of_isASCII uni _ (by decide)]
    decide!
  · rw [ToLower_of_isASCII uni _ (by decide)]
    decide!
  · rw [vaidateAdSystemCName_of_isASCII uni _ (by decide)]
    decide!

/-! ### The registry tables, entry by entry -/

theorem adSystems_keyed : ∀ e ∈ adSystems, e.2.ID = e.1 := by
  decide!

theorem adSystemDomains_keyed : ∀ e ∈ adSystemDomains, e.2.Domain = e.1 := by
  refine forall_mem_of_chunks _ adSystemDomains 13 28 (by decide!) ?_
  intro i hi
  interval_cases i <;> decide!

theorem adSystemDomains_resolve : ∀ e ∈ adSystemDomains,
    (adSystems.lookup e.2.ID = none ↔
      e = ("mobileadtrading.com", newAdSystemDomain "mobileadtrading.com" 245)) := by
  refine forall_mem_of_chunks _ adSystemDomains 13 28 (by decide!) ?_
  intro i hi
  interval_cases i <;> decide!

theorem mem_of_lookup {α β : Type} [BEq α] [LawfulBEq α] (k : α) (v : β) :
    ∀ l : List (α × β), l.lookup k = some v → (k, v) ∈ l := by
  intro l
  induction l with
  | nil => intro h; cases h
  | cons x xs ih =>
    intro h
    obtain ⟨a, b⟩ := x
    rw [List.lookup_cons] at h
    by_cases hk : (k == a) = true
    · rw [hk] at h
      have hb : b = v := Option.some.inj h
      rw [beq_iff_eq] at hk
      rw [hk, hb]
      exact List.mem_cons_self _ _
    · rw [Bool.not_eq_true] at hk
      rw [hk] at h
      exact List.mem_cons_of_mem _ (ih h)

/-! ### Lower-casing leaves no upper-case ASCII letter -/

theorem lowerRune_not_upper (uni : Char → Char)
    (huni : ∀ c : Char, 128 ≤ c.toNat → isUpperASCII (uni c) = false) (c : Char) :
    isUpperASCII (lowerRune uni c) = false := by
  unfold lowerRune
  split
  · split
    · rename_i h1 h2
      have hv : (Char.ofNat (c.toNat + 32)).toNat = c.toNat + 32 := by
        have hvalid : (c.toNat + 32).isValidChar := Or.inl (by omega)
        unfold Char.ofNat
        rw [dif_pos hvalid]
        rfl
      simp only [isUpperASCII, hv, Bool.and_eq_false_imp, decide_eq_true_eq,
        decide_eq_false_iff_not]
      omega
    · rename_i h1 h2
      simp only [isUpperASCII, Bool.and_eq_false_imp, decide_eq_true_eq,
        decide_eq_false_iff_not]
      omega
  · rename_i h1
    exact huni c (by omega)

theorem ToLower_not_upper (uni : Char → Char)
    (huni : ∀ c : Char, 128 ≤ c.toNat → isUpperASCII (uni c) = false) (d : String) :
    (ToLower uni d).data.any isUpperASCII = false := by
  unfold ToLower
  rw [List.any_eq_false]
  intro c hc
  obtain ⟨x, _, rfl⟩ := List.mem_map.mp hc
  rw [lowerRune_not_upper uni huni x]
  decide

theorem ToLower_eq_empty_iff (uni : Char → Char) (d : String) :
    ToLower uni d = "" ↔ d = "" := by
  constructor
  · intro h
    have hd := congrArg String.data h
    simp only [ToLower] at hd
    apply String.ext
    exact List.map_eq_nil_iff.mp hd
  · intro h
    rw [h]
    rfl

theorem vaidateAdSystemCName_unknown_text (uni : Char → Char) (d : String)
    (hl : adSystemDomains.lookup (ToLower uni d) = none)
    (hs : scanAdSystems uni d adSystems = false) :
    vaidateAdSystemCName uni d
      = some ("Please verify that " ++ d ++ " is a known exchange domain") := by
  unfold vaidateAdSystemCName
  rw [hl]
  simp [hs]

theorem example_com_lookup : adSystemDomains.lookup (ToLower id "Example.COM") = none := by
  rw [List.lookup_eq_none_iff]
  intro p hp
  rw [bne_iff_ne]
  exact fun h => example_com_no_alias p hp h.symm

theorem example_com_scan : scanAdSystems id "Example.COM" adSystems = false := by
  rw [Bool.eq_false_iff]
  intro hscan
  obtain ⟨e, he, hc⟩ := (scanAdSystems_eq_true_iff id "Example.COM" adSystems).mp hscan
  obtain ⟨m, hm, hmd⟩ := (compareCName_eq_true_iff id e.2 "Example.COM").mp hc
  exact example_com_no_canonical e he m hm hmd

theorem append_right_ne (p a b q : String) (h : a ≠ b) : p ++ a ++ q ≠ p ++ b ++ q := by
  intro he
  apply h
  have hd := congrArg String.data he
  simp only [String.data_append, List.append_assoc] at hd
  have h1 := List.append_cancel_left hd
  exact String.ext (List.append_cancel_right h1)

/-! ### What `stripDomain` leaves -/

/-- Cutting a string at the first occurrence of a rune, as `stripDomain` does
for '/' and ':', leaves a prefix of the string without that rune. -/
theorem cut_at_rune (c : Char) (s : String) :
    c ∉ (if Index s ⟨[c]⟩ ≠ -1 then sliceTo s (Index s ⟨[c]⟩) else s).data ∧
    ∀ x, x ∈ (if Index s ⟨[c]⟩ ≠ -1 then sliceTo s (Index s ⟨[c]⟩) else s).data →
      x ∈ s.data := by
  by_cases hm : c ∈ s.data
  · obtain ⟨a, b, hab, hna⟩ := split_at_first c s.data hm
    have hs : s = ⟨a ++ c :: b⟩ := String.ext hab
    have hi : Index s ⟨[c]⟩ = ((len ⟨a⟩ : Nat) : Int) := by
      rw [hs]
      exact Index_mk_rune_first a b c hna
    rw [hi, if_pos (show ((len ⟨a⟩ : Nat) : Int) ≠ -1 by omega)]
    have hst : sliceTo s ((len ⟨a⟩ : Nat) : Int) = ⟨a⟩ := by
      rw [hs]
      exact sliceTo_mk a (c :: b)
    rw [hst]
    refine ⟨hna, ?_⟩
    intro x hx
    rw [hab]
    exact List.mem_append_left _ hx
  · have hi : Index s ⟨[c]⟩ = -1 := Index_mk_absent s.data c [] hm
    rw [hi, if_neg (by simp)]
    exact ⟨hm, fun x hx => hx⟩

theorem stripDomain_no_sep (rawurl : String) :
    '/' ∉ (stripDomain rawurl).data ∧ ':' ∉ (stripDomain rawurl).data := by
  unfold stripDomain
  dsimp only
  generalize (if Index rawurl "://" ≠ -1 then sliceFrom rawurl (Index rawurl "://" + 3)
    else rawurl) = r1
  have h2 := cut_at_rune '/' r1
  generalize (if Index r1 "/" ≠ -1 then sliceTo r1 (Index r1 "/") else r1) = r2 at h2 ⊢
  have h3 := cut_at_rune ':' r2
  exact ⟨fun hm => h2.1 (h3.2 _ hm), h3.1⟩

/-! ## The claims, concluded -/

/-- C21, as stated, fails: the text of the error for an unknown domain starts
with a capital letter. "Example.COM" is no alias and no member of a canonical
set, and the message is "Please verify that Example.COM is a known exchange
domain", not "please verify that Example.COM is a known exchange domain". -/
theorem vaidateAdSystemCName_unknown_text_capital :
    adSystemDomains.lookup (ToLower id "Example.COM") = none ∧
    scanAdSystems id "Example.COM" adSystems = false ∧
    vaidateAdSystemCName id "Example.COM"
      = some "Please verify that Example.COM is a known exchange domain" ∧
    vaidateAdSystemCName id "Example.COM"
      ≠ some "please verify that Example.COM is a known exchange domain" := by
  have h := vaidateAdSystemCName_unknown_text id "Example.COM" example_com_lookup
    example_com_scan
  refine ⟨example_com_lookup, example_com_scan, h, ?_⟩
  rw [h]
  decide

/-- C21, amended: when the lower-cased input is no alias key and the scan finds
no ad system whose canonical set matches, the message of the returned error is
"Please verify that {domain} is a known exchange domain", with a capital P and
with {domain} the input exactly as passed, in its original letter case: two
inputs that differ get different messages, also when their lower-cased forms
agree. -/
theorem vaidateAdSystemCName_unknown_verbatim (uni : Char → Char) (d : String)
    (hl : adSystemDomains.lookup (ToLower uni d) = none)
    (hs : ∀ e ∈ adSystems, e.2.compareCName uni d = false) :
    vaidateAdSystemCName uni d
      = some ("Please verify that " ++ d ++ " is a known exchange domain") ∧
    ∀ d2 : String, d2 ≠ d →
      vaidateAdSystemCName uni d
        ≠ some ("Please verify that " ++ d2 ++ " is a known exchange domain") := by
  have hscan : scanAdSystems uni d adSystems = false := by
    rw [Bool.eq_false_iff]
    intro hscan
    obtain ⟨e, he, hc⟩ := (scanAdSystems_eq_true_iff uni d adSystems).mp hscan
    rw [hs e he] at hc
    cases hc
  have h := vaidateAdSystemCName_unknown_text uni d hl hscan
  refine ⟨h, ?_⟩
  intro d2 hne heq
  rw [h] at heq
  exact append_right_ne _ d d2 _ (Ne.symm hne) (Option.some.inj heq)

theorem vaidateAdSystemCName_unknown_verbatim_witness :
    adSystemDomains.lookup (ToLower id "Example.COM") = none ∧
    (∀ e ∈ adSystems, e.2.compareCName id "Example.COM" = false) ∧
    vaidateAdSystemCName id "Example.COM"
      = some "Please verify that Example.COM is a known exchange domain" ∧
    vaidateAdSystemCName id "Example.COM"
      ≠ some "Please verify that example.com is a known exchange domain" :=
  have hs : ∀ e ∈ adSystems, e.2.compareCName id "Example.COM" = false := by
    intro e he
    rw [Bool.eq_false_iff]
    intro hc
    obtain ⟨m, hm, hmd⟩ := (compareCName_eq_true_iff id e.2 "Example.COM").mp hc
    exact example_com_no_canonical e he m hm hmd
  ⟨example_com_lookup, hs,
    (vaidateAdSystemCName_unknown_verbatim id "Example.COM" example_com_lookup hs).1,
    (vaidateAdSystemCName_unknown_verbatim id "Example.COM" example_com_lookup hs).2
      "example.com" (by decide)⟩

/-- C22: `rootDomain` never reports an error. For all behaviours of the two
public-suffix functions and every input, the error of the result is nil: the
fallback branch returns nil, and the second eTLD+1 call repeats the first,
which succeeded, so the result is the domain that call gave. -/
theorem rootDomain_no_error {β : Type} (EffectiveTLDPlusOne' : String → Except String String)
    (PublicSuffix : String → String × β) (rawurl : String) :
    (rootDomain EffectiveTLDPlusOne' PublicSuffix rawurl).2 = none ∧
    (∀ r, EffectiveTLDPlusOne' (stripDomain rawurl) = .ok r →
      rootDomain EffectiveTLDPlusOne' PublicSuffix rawurl = (r, none)) ∧
    (∀ e, EffectiveTLDPlusOne' (stripDomain rawurl) = .error e →
      rootDomain EffectiveTLDPlusOne' PublicSuffix rawurl
        = ((PublicSuffix (stripDomain rawurl)).1, none)) := by
  unfold rootDomain
  cases h : EffectiveTLDPlusOne' (stripDomain rawurl) with
  | error e => simp
  | ok r => simp

/-- C23: the string that `stripDomain` hands to the public-suffix functions
holds neither '/' nor ':', so no "://" either; `rootDomain` reads its input
through `stripDomain` only; and `stripDomain` leaves a string without '/' and
':' unchanged. -/
theorem stripDomain_clean (rawurl : String) :
    ('/' ∉ (stripDomain rawurl).data ∧ ':' ∉ (stripDomain rawurl).data ∧
      Index (stripDomain rawurl) "://" = -1) ∧
    (∀ (β : Type) (EffectiveTLDPlusOne' : String → Except String String)
        (PublicSuffix : String → String × β),
      rootDomain EffectiveTLDPlusOne' PublicSuffix rawurl
        = rootDomain EffectiveTLDPlusOne' PublicSuffix (stripDomain rawurl)) ∧
    (∀ h : String, '/' ∉ h.data → ':' ∉ h.data → stripDomain h = h) := by
  have hc := stripDomain_no_sep rawurl
  have hidem : stripDomain (stripDomain rawurl) = stripDomain rawurl :=
    stripDomain_bare _ hc.1 hc.2
  refine ⟨⟨hc.1, hc.2, Index_mk_absent _ ':' ['/', '/'] hc.2⟩, ?_, stripDomain_bare⟩
  intro β E P
  unfold rootDomain
  rw [hidem]

/-- C24: the empty string is accepted. It is no alias key, splitting "" on
commas gives the single member "", and the scan meets an ad system with an
empty canonical domain; for such an ad system `compareCName` is true exactly
on the empty input. -/
theorem vaidateAdSystemCName_empty (uni : Char → Char) :
    vaidateAdSystemCName uni "" = none ∧
    adSystemDomains.lookup (ToLower uni "") = none ∧
    Split "" "," = [""] ∧
    (∃ e ∈ adSystems, e.2.CanonicalDomain = "") ∧
    ∀ (a : adSystem) (d : String), a.CanonicalDomain = "" →
      (a.compareCName uni d = true ↔ d = "") := by
  have hlow : ToLower uni "" = "" := rfl
  have hl : adSystemDomains.lookup "" = none := by decide!
  have hgen : ∀ (a : adSystem) (d : String), a.CanonicalDomain = "" →
      (a.compareCName uni d = true ↔ d = "") := by
    intro a d ha
    rw [compareCName_eq_true_iff, ha]
    have hs : Split "" "," = [""] := by decide
    rw [hs]
    constructor
    · rintro ⟨m, hm, hmd⟩
      rw [List.mem_singleton] at hm
      rw [hm] at hmd
      have ht : TrimSpace "" = "" := by decide
      rw [ht] at hmd
      exact (ToLower_eq_empty_iff uni d).mp hmd.symm
    · intro hd
      refine ⟨"", List.mem_singleton.mpr rfl, ?_⟩
      rw [hd, hlow]
      decide
  have h2 : (2, newAdSystem 2 "33Across" "") ∈ adSystems := by decide
  refine ⟨?_, by rw [hlow]; exact hl, by decide, ⟨_, h2, rfl⟩, hgen⟩
  rw [vaidateAdSystemCName_of_no_alias uni "" (by rw [hlow]; exact hl)]
  exact ⟨_, h2, (hgen _ "" rfl).mpr rfl⟩

/-- C25: alias entries whose key holds an upper-case letter are unreachable.
`strings.ToLower` leaves no upper-case ASCII letter (`unicode.ToLower` maps no
rune outside ASCII to one), so for no input does the lookup return such an
entry; the table has six of them, and the resolver called with any of the six
keys returns the unknown-exchange error. -/
theorem adSystemDomains_upper_unreachable (uni : Char → Char)
    (huni : ∀ c : Char, 128 ≤ c.toNat → isUpperASCII (uni c) = false) :
    (∀ e ∈ adSystemDomains, e.1.data.any isUpperASCII = true →
      ∀ d : String, adSystemDomains.lookup (ToLower uni d) ≠ some e.2) ∧
    (adSystemDomains.filter (fun e => e.1.data.any isUpperASCII)).map Prod.fst
      = ["Brealtime", "Advertise.com", "SpotIM", "RTK.io", "Liondigitalserving.com",
        "Chocolateplatform.com"] ∧
    ∀ k ∈ ["Brealtime", "Advertise.com", "SpotIM", "RTK.io", "Liondigitalserving.com",
        "Chocolateplatform.com"],
      vaidateAdSystemCName uni k
        = some ("Please verify that " ++ k ++ " is a known exchange domain") := by
  refine ⟨?_, by decide!, ?_⟩
  · intro e he hup d hl
    have hmem := mem_of_lookup _ _ _ hl
    have h1 : e.2.Domain = ToLower uni d := adSystemDomains_keyed _ hmem
    have h2 : e.2.Domain = e.1 := adSystemDomains_keyed _ he
    rw [← h2, h1, ToLower_not_upper uni huni d] at hup
    cases hup
  · intro k hk
    simp only [List.mem_cons, List.mem_singleton, List.not_mem_nil, or_false] at hk
    rcases hk with rfl | rfl | rfl | rfl | rfl | rfl
    · rw [vaidateAdSystemCName_of_isASCII uni _ (by decide)]
      decide!
    · rw [vaidateAdSystemCName_of_isASCII uni _ (by decide)]
      decide!
    · rw [vaidateAdSystemCName_of_isASCII uni _ (by decide)]
      decide!
    · rw [vaidateAdSystemCName_of_isASCII uni _ (by decide)]
      decide!
    · rw [vaidateAdSystemCName_of_isASCII uni _ (by decide)]
      decide!
    · rw [vaidateAdSystemCName_of_isASCII uni _ (by decide)]
      decide!

theorem adSystemDomains_upper_unreachable_witness :
    (∀ c : Char, 128 ≤ c.toNat → isUpperASCII (id c) = false) ∧
    adSystemDomains.lookup (ToLower id "SPOTIM") ≠ some (newAdSystemDomain "SpotIM" 191) ∧
    vaidateAdSystemCName id "SpotIM"
      = some "Please verify that SpotIM is a known exchange domain" :=
  have huni : ∀ c : Char, 128 ≤ c.toNat → isUpperASCII (id c) = false := by
    intro c hc
    simp only [isUpperASCII, id, Bool.and_eq_false_imp, decide_eq_true_eq,
      decide_eq_false_iff_not]
    omega
  ⟨huni,
    (adSystemDomains_upper_unreachable id huni).1 ("SpotIM", newAdSystemDomain "SpotIM" 191)
      (by decide) (by decide) "SPOTIM",
    (adSystemDomains_upper_unreachable id huni).2.2 "SpotIM" (by decide)⟩

/-- C26: exactly one alias is dangling. The entry "mobileadtrading.com", with
ID 245, is in `adSystemDomains` once and 245 is no key of `adSystems`; it is
the only entry whose ID is not a key of `adSystems`, every other entry's ID
resolves to an ad system. -/
theorem adSystemDomains_one_dangling :
    ("mobileadtrading.com", newAdSystemDomain "mobileadtrading.com" 245) ∈ adSystemDomains ∧
    (adSystemDomains.map Prod.fst).count "mobileadtrading.com" = 1 ∧
    adSystems.lookup 245 = none ∧
    (∀ e ∈ adSystemDomains, adSystems.lookup e.2.ID = none →
      e = ("mobileadtrading.com", newAdSystemDomain "mobileadtrading.com" 245)) ∧
    (∀ e ∈ adSystemDomains,
      e ≠ ("mobileadtrading.com", newAdSystemDomain "mobileadtrading.com" 245) →
      ∃ a, adSystems.lookup e.2.ID = some a ∧ (e.2.ID, a) ∈ adSystems) := by
  refine ⟨by decide, by decide!, by decide, ?_, ?_⟩
  · intro e he hn
    exact (adSystemDomains_resolve e he).mp hn
  · intro e he hne
    cases hl : adSystems.lookup e.2.ID with
    | none => exact absurd ((adSystemDomains_resolve e he).mp hl) hne
    | some a => exact ⟨a, rfl, mem_of_lookup _ _ _ hl⟩

/-- C27: acceptance by the resolver does not imply a valid domain syntax. The
alias "adingo.jp<http://adingo.jp>" of ad system 110, which has an empty
canonical domain, is accepted by `vaidateAdSystemCName` and rejected by
`validateDomainName`; and `validateDomainName` rejects every alias key that
holds "://": there are eight, all of the form of this one. -/
theorem vaidateAdSystemCName_accepts_invalid (uni : Char → Char)
    (urlParse : String → Except String URL) :
    (adSystemDomains.lookup (ToLower uni "adingo.jp<http://adingo.jp>")
        = some (newAdSystemDomain "adingo.jp<http://adingo.jp>" 110) ∧
      adSystems.lookup 110 = some (newAdSystem 110 "Fluct" "") ∧
      vaidateAdSystemCName uni "adingo.jp<http://adingo.jp>" = none ∧
      validateDomainName urlParse "adingo.jp<http://adingo.jp>" = false) ∧
    (∀ e ∈ adSystemDomains, (∃ p q : String, e.1 = p ++ "://" ++ q) →
      validateDomainName urlParse e.1 = false) ∧
    (adSystemDomains.filter (fun e => Index e.1 "://" ≠ -1)).map Prod.fst
      = ["rubiconproject.com<http://rubiconproject.com>", "openx.com<http://openx.com>",
        "google.com<http://google.com>", "appnexus.com<http://appnexus.com>",
        "adingo.jp<http://adingo.jp>", "adtech.com<http://adtech.com>",
        "aolcloud.net<http://aolcloud.net>", "advertising.com<http://advertising.com>"] := by
  have hlow : ToLower uni "adingo.jp<http://adingo.jp>" = "adingo.jp<http://adingo.jp>" := by
    rw [ToLower_of_isASCII uni _ (by decide)]
    decide
  have hguard : ∀ d : String, Index d "://" ≠ -1 → validateDomainName urlParse d = false := by
    intro d hd
    unfold validateDomainName
    rw [if_pos hd]
  refine ⟨⟨?_, by decide, ?_, hguard _ (by decide)⟩, ?_, by decide!⟩
  · rw [hlow]
    decide!
  · rw [vaidateAdSystemCName_of_isASCII uni _ (by decide)]
    decide!
  · rintro e _ ⟨p, q, h⟩
    apply hguard
    rw [h]
    exact Index_ne_neg_one p "://" q

/-- C28: the registry maps are keyed by the fields of their records. Every
entry `(k, v)` of `adSystems` has `v.ID = k`, and every entry `(k, v)` of
`adSystemDomains` has `v.Domain = k`; so a lookup that succeeds returns a
record carrying the key looked up. -/
theorem registry_keyed :
    (∀ e ∈ adSystems, e.2.ID = e.1) ∧
    (∀ e ∈ adSystemDomains, e.2.Domain = e.1) ∧
    (∀ (k : Int) (v : adSystem), adSystems.lookup k = some v → v.ID = k) ∧
    (∀ (k : String) (v : adSystemDomain), adSystemDomains.lookup k = some v → v.Domain = k) :=
  ⟨adSystems_keyed, adSystemDomains_keyed,
    fun k v h => adSystems_keyed (k, v) (mem_of_lookup k v _ h),
    fun k v h => adSystemDomains_keyed (k, v) (mem_of_lookup k v _ h)⟩

end adstxt
